import Mathlib

/-! The `docker exec` client path.

A shallow embedding of `runExec` and `parseExec` (api/client/container/exec.go)
and of the error handling at the end of `main` (docker/docker.go).

Calls to collaborators whose code is outside the modelled files (the engine
API client and the `DockerCli` helpers) are taken from a record of functions,
`Collaborators`; every call, every write to a client stream and the deferred
`Close` are appended, in program order, to an event trace, so that "is
called", "is called once" and "is not called" are statements about the trace.
Go's `error` interface is `Option GoError`, `none` being `nil`.
-/

namespace Docker

/-! ## Data model -/

namespace cli

/-- The struct `cli.StatusError`, with the two fields the sources use
(`Status`, `StatusCode`); a composite literal leaves an unnamed field at its
zero value. Go's `int` is modelled by `Int`. -/
structure StatusError where
  Status : String := ""
  StatusCode : Int := 0
deriving DecidableEq, Repr

end cli

/-- A non-nil value of Go's `error` interface: either a `cli.StatusError`
(the one dynamic type `main` asks for with `err.(cli.StatusError)`) or an
error of any other dynamic type, identified by its text. -/
inductive GoError where
  | StatusError (e : cli.StatusError)
  | other (text : String)
deriving DecidableEq, Repr

/-- The type assertion `err.(cli.StatusError)`. -/
def GoError.asStatusError : GoError → Option cli.StatusError
  | .StatusError e => some e
  | .other _ => none

/-- The three client streams: `dockerCli.In()`, `dockerCli.Out()`,
`dockerCli.Err()` (in `main`: `stdin`, `stdout`, `stderr`). -/
inductive Stream where
  | In
  | Out
  | Err
deriving DecidableEq, Repr

/-- The fields of `types.ExecConfig` that `parseExec` and `runExec` set. -/
structure ExecConfig where
  User : String := ""
  Privileged : Bool := false
  Tty : Bool := false
  AttachStdin : Bool := false
  AttachStderr : Bool := false
  AttachStdout : Bool := false
  Detach : Bool := false
  DetachKeys : String := ""
  Cmd : List String := []
deriving DecidableEq, Repr

/-- The struct `types.ExecStartCheck`. -/
structure ExecStartCheck where
  Detach : Bool
  Tty : Bool
deriving DecidableEq, Repr

/-- The response of `ContainerExecCreate`; only `ID` is read. -/
structure ContainerExecCreateResponse where
  ID : String
deriving DecidableEq, Repr

/-- The value `types.HijackedResponse` returned by `ContainerExecAttach`: the
hijacked connection, identified by a handle. -/
structure HijackedResponse where
  conn : Nat
deriving DecidableEq, Repr

/-- The struct `execOptions`. -/
structure execOptions where
  detachKeys : String := ""
  interactive : Bool := false
  tty : Bool := false
  detach : Bool := false
  user : String := ""
  privileged : Bool := false
deriving DecidableEq, Repr

/-- An operand of a print call: a string or an error value (printed through
its `Error` method, which the modelled files do not define). -/
inductive Arg where
  | str (s : String)
  | err (e : GoError)
deriving DecidableEq, Repr

/-- Modelled from the spec: the body of `HoldHijackedConnection` (the
attachment pump) is not among the sources. Section 4.3 gives its completion
reasons, `StreamClosed`, `Detached` and `Error e`. -/
inductive Completion where
  | StreamClosed
  | Detached
  | Error (e : GoError)
deriving DecidableEq, Repr

/-- Modelled from the spec: the Go `error` that the absent
`HoldHijackedConnection` returns for a completion reason. Section 7: "Detach
is never treated as an error", and a stream that ended is the normal
termination, so only `Error e` is a non-nil error. -/
def Completion.err : Completion → Option GoError
  | .StreamClosed => none
  | .Detached => none
  | .Error e => some e

/-- What the program does, in program order. -/
inductive Event where
  | ContainerExecCreate (container : String) (config : ExecConfig)
  | CheckTtyInput (attachStdin ttyMode : Bool)
  | ContainerExecStart (execID : String) (config : ExecStartCheck)
  | ContainerExecAttach (execID : String) (config : ExecConfig)
  /-- The goroutine started by `promise.Go`, with the arguments of its call of
  `HoldHijackedConnection`; `none` is a nil stream. -/
  | HoldHijackedConnection (tty : Bool) (inputStream outputStream errorStream : Option Stream)
      (resp : HijackedResponse)
  | MonitorTtySize (id : String) (isExec : Bool)
  /-- The receive `<-errCh`: the wait for the pump's result. -/
  | recvErrCh
  | GetExecExitCode (execID : String)
  /-- The deferred `resp.Close()`. -/
  | Close (resp : HijackedResponse)
  | Fprintf (w : Stream) (format : String) (args : List Arg)
  | Fprintln (w : Stream) (args : List Arg)
  /-- A call of `logrus.Debugf`: a debug log entry, not a write of the command. -/
  | Debugf (format : String) (args : List Arg)
deriving DecidableEq, Repr

/-- The results of the calls that `runExec` makes outside the modelled files:
the engine API client (`dockerCli.Client()`) and the `DockerCli` helpers. -/
structure Collaborators where
  ContainerExecCreate : String → ExecConfig → ContainerExecCreateResponse × Option GoError
  CheckTtyInput : Bool → Bool → Option GoError
  ContainerExecStart : String → ExecStartCheck → Option GoError
  ContainerExecAttach : String → ExecConfig → HijackedResponse × Option GoError
  HoldHijackedConnection :
    Bool → Option Stream → Option Stream → Option Stream → HijackedResponse → Completion
  IsTerminalIn : Bool
  MonitorTtySize : String → Bool → Option GoError
  GetExecExitCode : String → Bool × Int × Option GoError

/-- The state `runExec` acts on: the trace so far and the one field of the
client's configuration file it touches, `dockerCli.ConfigFile().DetachKeys`. -/
structure World where
  events : List Event := []
  DetachKeys : String := ""
deriving DecidableEq, Repr

/-- Append one event to the trace. -/
def World.emit (w : World) (e : Event) : World :=
  { w with events := w.events ++ [e] }

/-! ## api/client/container/exec.go -/

namespace container

/-- The function `parseExec`. -/
def parseExec (opts : execOptions) (_container : String) (execCmd : List String) :
    ExecConfig × Option GoError :=
  let execConfig : ExecConfig :=
    { User := opts.user
      Privileged := opts.privileged
      Tty := opts.tty
      Cmd := execCmd
      Detach := opts.detach }
  -- If -d is not set, attach to everything by default
  let execConfig :=
    if !opts.detach then
      let execConfig := { execConfig with AttachStdout := true, AttachStderr := true }
      if opts.interactive then { execConfig with AttachStdin := true } else execConfig
    else execConfig
  (execConfig, none)

/-- Lines 126 to 150 of `runExec`: what runs between `defer resp.Close()` and
the return, for the streams `in`, `out`, `stderr` chosen before. -/
def runExec.session (dockerCli : Collaborators) (w : World) (execConfig : ExecConfig)
    (execID : String) (inputStream out stderr : Option Stream) (resp : HijackedResponse) :
    Option GoError × World :=
  -- errCh = promise.Go(func() error { return dockerCli.HoldHijackedConnection(...) })
  let w := w.emit (.HoldHijackedConnection execConfig.Tty inputStream out stderr resp)
  let w :=
    if execConfig.Tty && dockerCli.IsTerminalIn then
      let w := w.emit (.MonitorTtySize execID true)
      match dockerCli.MonitorTtySize execID true with
      | some err => w.emit (.Fprintf .Err "监听TTY规格出错: %s\n" [.err err])
      | none => w
    else w
  let w := w.emit .recvErrCh
  match (dockerCli.HoldHijackedConnection execConfig.Tty inputStream out stderr resp).err with
  | some err => (some err, w.emit (.Debugf "Error hijack: %s" [.err err]))
  | none =>
  let w := w.emit (.GetExecExitCode execID)
  match dockerCli.GetExecExitCode execID with
  | (_, _, some err) => (some err, w)
  | (_, status, none) =>
  if status ≠ 0 then
    (some (.StatusError { StatusCode := status }), w)
  else
    (none, w)

/-- Lines 100 to 151 of `runExec` ("Interactive exec requested"): the choice of
the streams, the attach request, and the session under the deferred `Close`. -/
def runExec.interactive (dockerCli : Collaborators) (w : World) (execConfig : ExecConfig)
    (execID : String) : Option GoError × World :=
  let inputStream : Option Stream := if execConfig.AttachStdin then some .In else none
  let out : Option Stream := if execConfig.AttachStdout then some .Out else none
  let stderr : Option Stream :=
    if execConfig.AttachStderr then
      (if execConfig.Tty then some .Out else some .Err)
    else none
  let w := w.emit (.ContainerExecAttach execID execConfig)
  match dockerCli.ContainerExecAttach execID execConfig with
  | (_, some err) => (some err, w)
  | (resp, none) =>
  -- `defer resp.Close()`: the connection is closed last, on every return
  let r := runExec.session dockerCli w execConfig execID inputStream out stderr resp
  (r.1, r.2.emit (.Close resp))

/-- Lines 68 to 99 of `runExec`: the creation of the exec session for the
configuration `execConfig` built before, and the branch on `Detach`; an
attached exec goes on in `runExec.interactive`. -/
def runExec.create (dockerCli : Collaborators) (w : World) (execConfig : ExecConfig)
    (container : String) : Option GoError × World :=
  let w := w.emit (.ContainerExecCreate container execConfig)
  match dockerCli.ContainerExecCreate container execConfig with
  | (_, some err) => (some err, w)
  | (response, none) =>
  let execID := response.ID
  if execID = "" then
    (none, w.emit (.Fprintf .Out "执行ID为空" []))
  else
  -- Temp struct for execStart so that we don't need to transfer all the execConfig
  if !execConfig.Detach then
    let w := w.emit (.CheckTtyInput execConfig.AttachStdin execConfig.Tty)
    match dockerCli.CheckTtyInput execConfig.AttachStdin execConfig.Tty with
    | some err => (some err, w)
    | none => runExec.interactive dockerCli w execConfig execID
  else
    let execStartCheck : ExecStartCheck := { Detach := execConfig.Detach, Tty := execConfig.Tty }
    let w := w.emit (.ContainerExecStart execID execStartCheck)
    match dockerCli.ContainerExecStart execID execStartCheck with
    | some err => (some err, w)
    | none =>
      -- For now don't print this - wait for when we support exec wait()
      (none, w)

/-- The function `runExec`: the returned error and the world it leaves. Lines
54 to 66 are here; the function goes on in `runExec.create`. -/
def runExec (dockerCli : Collaborators) (w : World) (opts : execOptions) (container : String)
    (execCmd : List String) : Option GoError × World :=
  match parseExec opts container execCmd with
  | (execConfig, err) =>
  -- just in case the ParseExec does not exit
  if container = "" ∨ err.isSome then
    (some (.StatusError { StatusCode := 1 }), w)
  else
  let w := if opts.detachKeys ≠ "" then { w with DetachKeys := opts.detachKeys } else w
  -- Send client escape keys
  let execConfig := { execConfig with DetachKeys := w.DetachKeys }
  runExec.create dockerCli w execConfig container

/-! ### The values a run of `runExec` computes on its way

The expressions `runExec` evaluates before it attaches, named so that
statements can speak of "the exec ID" or "the pump's result" of a run. -/

/-- The configuration `runExec` sends: the one `parseExec` built, with
`DetachKeys` set from the configuration file after the `--detach-keys`
override. -/
def sentConfig (w : World) (opts : execOptions) (container : String) (execCmd : List String) :
    ExecConfig :=
  { (parseExec opts container execCmd).1 with
    DetachKeys := if opts.detachKeys ≠ "" then opts.detachKeys else w.DetachKeys }

/-- The world in which the creation request is sent: the configuration file
holds the detach keys that are sent. -/
def sentWorld (w : World) (opts : execOptions) (container : String) (execCmd : List String) :
    World :=
  { w with DetachKeys := (sentConfig w opts container execCmd).DetachKeys }

/-- The `execID` of a run: `response.ID` of the creation request. -/
def execIDOf (dockerCli : Collaborators) (w : World) (opts : execOptions) (container : String)
    (execCmd : List String) : String :=
  (dockerCli.ContainerExecCreate container (sentConfig w opts container execCmd)).1.ID

/-- The run gets past the creation of the exec session: the container name is
not empty, `ContainerExecCreate` succeeds and the exec ID is not empty. -/
def created (dockerCli : Collaborators) (w : World) (opts : execOptions) (container : String)
    (execCmd : List String) : Bool :=
  container ≠ "" &&
  (dockerCli.ContainerExecCreate container (sentConfig w opts container execCmd)).2.isNone &&
  execIDOf dockerCli w opts container execCmd ≠ ""

/-- The run attaches: it is not a detached exec, it gets past the creation,
`CheckTtyInput` accepts the options and `ContainerExecAttach` succeeds. -/
def attaches (dockerCli : Collaborators) (w : World) (opts : execOptions) (container : String)
    (execCmd : List String) : Bool :=
  !opts.detach && created dockerCli w opts container execCmd &&
  (dockerCli.CheckTtyInput (sentConfig w opts container execCmd).AttachStdin
    (sentConfig w opts container execCmd).Tty).isNone &&
  (dockerCli.ContainerExecAttach (execIDOf dockerCli w opts container execCmd)
    (sentConfig w opts container execCmd)).2.isNone

/-- The hijacked connection of a run that attaches. -/
def respOf (dockerCli : Collaborators) (w : World) (opts : execOptions) (container : String)
    (execCmd : List String) : HijackedResponse :=
  (dockerCli.ContainerExecAttach (execIDOf dockerCli w opts container execCmd)
    (sentConfig w opts container execCmd)).1

/-- The completion the pump reports in a run that attaches: the result of
`HoldHijackedConnection` at the arguments `runExec` computes for it. -/
def pumpOf (dockerCli : Collaborators) (w : World) (opts : execOptions) (container : String)
    (execCmd : List String) : Completion :=
  let execConfig := sentConfig w opts container execCmd
  dockerCli.HoldHijackedConnection execConfig.Tty
    (if execConfig.AttachStdin then some .In else none)
    (if execConfig.AttachStdout then some .Out else none)
    (if execConfig.AttachStderr then (if execConfig.Tty then some .Out else some .Err) else none)
    (respOf dockerCli w opts container execCmd)

/-- The result of the exit-status query of a run. -/
def exitCodeOf (dockerCli : Collaborators) (w : World) (opts : execOptions) (container : String)
    (execCmd : List String) : Bool × Int × Option GoError :=
  dockerCli.GetExecExitCode (execIDOf dockerCli w opts container execCmd)

/-- The events `runExec.session` adds to the trace, in order: the start of the
pump, the size monitor with the report of its failure, the wait for the pump,
and the debug entry or the exit-status query. -/
def sessionEvents (dockerCli : Collaborators) (cfg : ExecConfig) (id : String)
    (i o e : Option Stream) (resp : HijackedResponse) : List Event :=
  [.HoldHijackedConnection cfg.Tty i o e resp] ++
    (if cfg.Tty && dockerCli.IsTerminalIn then
      .MonitorTtySize id true ::
        (match dockerCli.MonitorTtySize id true with
         | some err => [.Fprintf .Err "监听TTY规格出错: %s\n" [.err err]]
         | none => [])
     else []) ++ [.recvErrCh] ++
    (match (dockerCli.HoldHijackedConnection cfg.Tty i o e resp).err with
     | some err => [.Debugf "Error hijack: %s" [.err err]]
     | none => [.GetExecExitCode id])

/-- The events a run of `runExec` adds to the trace. -/
def trace (dockerCli : Collaborators) (w : World) (opts : execOptions) (container : String)
    (execCmd : List String) : List Event :=
  (runExec dockerCli w opts container execCmd).2.events.drop w.events.length

end container

/-! ### Reading a trace -/

/-- The event is a call of `GetExecExitCode`. -/
def Event.isGetExecExitCode : Event → Bool
  | .GetExecExitCode _ => true
  | _ => false

/-- The event is a `Close` of a hijacked connection. -/
def Event.isClose : Event → Bool
  | .Close _ => true
  | _ => false

/-- The event is a start of the pump. -/
def Event.isHoldHijackedConnection : Event → Bool
  | .HoldHijackedConnection _ _ _ _ _ => true
  | _ => false

/-- The event is a call of `MonitorTtySize`. -/
def Event.isMonitorTtySize : Event → Bool
  | .MonitorTtySize _ _ => true
  | _ => false

/-- The event is a write to the given client stream. -/
def Event.writesTo (s : Stream) : Event → Bool
  | .Fprintf w _ _ => w == s
  | .Fprintln w _ => w == s
  | _ => false

/-! ## docker/docker.go -/

/-- How `main` ends: what it wrote, and the argument of `os.Exit` (`none`
when `main` returns without calling it, the process then ending with
status 0). -/
structure Exit where
  events : List Event := []
  code : Option Int := none
deriving DecidableEq, Repr

/-- The end of the function `main`, from the result `err` of
`c.Run(flag.Args()...)` on: the handling of the error of the command that
was run. `c.Run` (package `cli`) is outside the modelled files; it is taken to
hand back the error the command returned. -/
def main (err : Option GoError) : Exit :=
  match err with
  | none => { }
  | some err =>
    match err.asStatusError with
    | some sterr =>
      if sterr.Status ≠ "" then
        { events := [.Fprintln .Err [.str sterr.Status]], code := some 1 }
      else
        { code := some sterr.StatusCode }
    | none =>
      { events := [.Fprintln .Err [.err err]], code := some 1 }

/-- The exit status of the client process, as its parent observes it on a
POSIX system: `os.Exit(code)` ends the process with the low eight bits of
`code` (256 gives 0, -1 gives 255), and a `main` that returns ends it with
status 0. -/
def Exit.status (x : Exit) : Int :=
  match x.code with
  | some code => code % 256
  | none => 0

/-- The same collaborators with another behaviour of `MonitorTtySize`. -/
def withMonitor (dockerCli : Collaborators) (m : String → Bool → Option GoError) :
    Collaborators :=
  { dockerCli with MonitorTtySize := m }

/-- The event is not a write to the client's stderr. -/
def Event.notStderr (e : Event) : Bool := !e.writesTo .Err

/-! ## Sample collaborators -/

/-- A daemon on which everything succeeds: session "e1", connection 7, a
terminal on stdin, the pump ends with the given completion and the exit-status
query gives the given result. -/
def sampleCli (pump : Completion) (exit : Bool × Int × Option GoError) : Collaborators where
  ContainerExecCreate := fun _ _ => ({ ID := "e1" }, none)
  CheckTtyInput := fun _ _ => none
  ContainerExecStart := fun _ _ => none
  ContainerExecAttach := fun _ _ => ({ conn := 7 }, none)
  HoldHijackedConnection := fun _ _ _ _ _ => pump
  IsTerminalIn := true
  MonitorTtySize := fun _ _ => none
  GetExecExitCode := fun _ => exit

/-- The event is a creation request of an exec session. -/
def Event.isContainerExecCreate : Event → Bool
  | .ContainerExecCreate _ _ => true
  | _ => false

/-! ## The multiplexed frame format (specification, sections 3, 4.2 and 6) -/

/-- One byte of a stream. -/
abbrev Byte := Fin 256

/-- Modelled from the spec: the stream discriminator of a frame (section 3,
StreamFrame); the codec (the repository's `stdcopy` package) is not among the
sources. -/
inductive StreamType where
  | stdout
  | stderr
deriving DecidableEq, Repr

/-- Modelled from the spec: section 6, "byte 0 = stream type (1 = stdout, 2 =
stderr)". -/
def StreamType.code : StreamType → Byte
  | .stdout => 1
  | .stderr => 2

/-- Modelled from the spec: the stream type a first header byte stands for;
any other value makes the header malformed. -/
def StreamType.ofCode (b : Byte) : Option StreamType :=
  if b = 1 then some .stdout else if b = 2 then some .stderr else none

/-- Modelled from the spec: the protocol errors of the decoder (section 7,
ProtocolFraming: "a multiplexed frame header is malformed or truncated
mid-payload"; section 3: a length above the maximum). -/
inductive FramingError where
  | malformedHeader
  | truncated
  | tooLong
deriving DecidableEq, Repr

/-- Modelled from the spec: the codec with its "sane maximum
(implementation-defined, e.g. 1 MiB)" of a payload's length (section 3); a
maximum is one the 4-byte length field can hold. -/
structure StreamFrameCodec where
  maxLength : Nat
  fits : maxLength < 2 ^ 32

namespace StreamFrameCodec

/-- Modelled from the spec: the example maximum of section 3, 1 MiB. -/
def oneMiB : StreamFrameCodec := ⟨1048576, by decide⟩

/-- Modelled from the spec: the encode direction (sections 4.2 and 6): "byte 0
= stream type; bytes 1–3 = reserved, must be zero on write; bytes 4–7 =
big-endian unsigned 32-bit payload length N; bytes 8..8+N-1 = payload". -/
def encode (t : StreamType) (payload : List Byte) : List Byte :=
  [t.code, 0, 0, 0,
    Fin.ofNat (payload.length / 2 ^ 24), Fin.ofNat (payload.length / 2 ^ 16),
    Fin.ofNat (payload.length / 2 ^ 8), Fin.ofNat payload.length] ++ payload

/-- Modelled from the spec: the decode direction for one frame (section 4.2):
"parse one header, then read exactly `length` bytes of payload". The result is
`none` on a clean end of stream (no byte left between frames), and otherwise
the stream type, the payload and the bytes that follow the frame; bytes 1–3
are "ignored on read"; an end of stream inside a header or a payload, a
malformed header and a length above the maximum are protocol errors. -/
def decode (c : StreamFrameCodec) :
    List Byte → Except FramingError (Option (StreamType × List Byte × List Byte))
  | [] => .ok none
  | t :: _ :: _ :: _ :: b4 :: b5 :: b6 :: b7 :: rest =>
    match StreamType.ofCode t with
    | none => .error .malformedHeader
    | some st =>
      let n := b4.val * 2 ^ 24 + b5.val * 2 ^ 16 + b6.val * 2 ^ 8 + b7.val
      if c.maxLength < n then .error .tooLong
      else if rest.length < n then .error .truncated
      else .ok (some (st, rest.take n, rest.drop n))
  | _ => .error .truncated

end StreamFrameCodec

/-! ## The detachable reader (specification, sections 3 and 4.1) -/

namespace DetachableReader

end DetachableReader

/-! ## api/client/system/inspect.go -/

/-- The function `strings.Contains` of Go's library. -/
def strings.Contains (s substr : String) : Bool :=
  decide (substr.data <:+: s.data)

namespace system

/-- The three results of a lookup, `(interface{}, []byte, error)`; `none` is
nil. -/
abbrev Inspected := Option String × Option (List Byte) × Option GoError

/-- The engine API client as `inspectAll` uses it, with the two functions it
applies to an error: `apiclient.IsErrNotFound` and the error's `Error`
method. -/
structure Client where
  ContainerInspectWithRaw : String → Bool → Inspected
  ImageInspectWithRaw : String → Inspected
  NetworkInspectWithRaw : String → Inspected
  NodeInspectWithRaw : String → Inspected
  ServiceInspectWithRaw : String → Inspected
  TaskInspectWithRaw : String → Inspected
  VolumeInspectWithRaw : String → Inspected
  IsErrNotFound : GoError → Bool
  Error : GoError → String

/-- What a lookup does, in program order: the requests to the daemon and the
writes to a client stream. -/
inductive Event where
  | ContainerInspectWithRaw (ref : String) (getSize : Bool)
  | ImageInspectWithRaw (ref : String)
  | NetworkInspectWithRaw (ref : String)
  | NodeInspectWithRaw (ref : String)
  | ServiceInspectWithRaw (ref : String)
  | TaskInspectWithRaw (ref : String)
  | VolumeInspectWithRaw (ref : String)
  | Fprintf (w : Stream) (format : String) (args : List Arg)
deriving DecidableEq, Repr

/-- The event is a request to the daemon. -/
def Event.isRequest : Event → Bool
  | .Fprintf _ _ _ => false
  | _ => true

/-- The type `inspect.GetRefFunc`: a lookup gives its three results and the
events of the call. -/
abbrev GetRefFunc := String → Inspected × List Event

/-- The function `inspectContainers`. -/
def inspectContainers (dockerCli : Client) (getSize : Bool) : GetRefFunc :=
  fun ref => (dockerCli.ContainerInspectWithRaw ref getSize, [.ContainerInspectWithRaw ref getSize])

/-- The function `inspectImages`. -/
def inspectImages (dockerCli : Client) : GetRefFunc :=
  fun ref => (dockerCli.ImageInspectWithRaw ref, [.ImageInspectWithRaw ref])

/-- The function `inspectNetwork`. -/
def inspectNetwork (dockerCli : Client) : GetRefFunc :=
  fun ref => (dockerCli.NetworkInspectWithRaw ref, [.NetworkInspectWithRaw ref])

/-- The function `inspectNode`. -/
def inspectNode (dockerCli : Client) : GetRefFunc :=
  fun ref => (dockerCli.NodeInspectWithRaw ref, [.NodeInspectWithRaw ref])

/-- The function `inspectService`. -/
def inspectService (dockerCli : Client) : GetRefFunc :=
  fun ref => (dockerCli.ServiceInspectWithRaw ref, [.ServiceInspectWithRaw ref])

/-- The function `inspectTasks`. -/
def inspectTasks (dockerCli : Client) : GetRefFunc :=
  fun ref => (dockerCli.TaskInspectWithRaw ref, [.TaskInspectWithRaw ref])

/-- The function `inspectVolume`. -/
def inspectVolume (dockerCli : Client) : GetRefFunc :=
  fun ref => (dockerCli.VolumeInspectWithRaw ref, [.VolumeInspectWithRaw ref])

/-- The element type of the table `inspectAutodetect`. -/
structure inspectData where
  ObjectType : String
  IsSizeSupported : Bool
  ObjectInspector : GetRefFunc

/-- The table `inspectAutodetect` of `inspectAll`. -/
def inspectAutodetect (dockerCli : Client) (getSize : Bool) : List inspectData :=
  [ ⟨"container", true, inspectContainers dockerCli getSize⟩,
    ⟨"image", true, inspectImages dockerCli⟩,
    ⟨"network", false, inspectNetwork dockerCli⟩,
    ⟨"volume", false, inspectVolume dockerCli⟩,
    ⟨"service", false, inspectService dockerCli⟩,
    ⟨"task", false, inspectTasks dockerCli⟩,
    ⟨"node", false, inspectNode dockerCli⟩ ]

/-- The closure `isErrNotSwarmManager` of `inspectAll`. -/
def isErrNotSwarmManager (dockerCli : Client) (err : GoError) : Bool :=
  strings.Contains (dockerCli.Error err) "This node is not a swarm manager"

/-- The loop `for _, inspectData := range inspectAutodetect` of the closure
`inspectAll` returns, on the entries that are left, and the `return` after
it. -/
def inspectAll.range (dockerCli : Client) (typeConstraint : String) (ref : String) :
    List inspectData → Inspected × List Event
  | [] => ((none, none, some (.other ("错误: 没有该项目: " ++ ref))), [])
  | inspectData :: rest =>
    if typeConstraint ≠ "" ∧ inspectData.ObjectType ≠ typeConstraint then
      inspectAll.range dockerCli typeConstraint ref rest
    else
      match inspectData.ObjectInspector ref with
      | ((v, raw, some err), events) =>
        if typeConstraint = "" ∧
            (dockerCli.IsErrNotFound err || isErrNotSwarmManager dockerCli err) then
          ((inspectAll.range dockerCli typeConstraint ref rest).1,
            events ++ (inspectAll.range dockerCli typeConstraint ref rest).2)
        else ((v, raw, some err), events)
      | ((v, raw, none), events) =>
        if !inspectData.IsSizeSupported then
          ((v, raw, none),
            events ++ [.Fprintf .Err "警告: --size 被忽略 %s\n" [.str inspectData.ObjectType]])
        else ((v, raw, none), events)

/-- The function `inspectAll`. -/
def inspectAll (dockerCli : Client) (getSize : Bool) (typeConstraint : String) : GetRefFunc :=
  fun ref => inspectAll.range dockerCli typeConstraint ref (inspectAutodetect dockerCli getSize)

/-- The lookup skips an inspector with these results when no type is asked
for: its error is a not-found error or says that the node is not a swarm
manager. -/
def skipped (dockerCli : Client) (r : Inspected) : Bool :=
  match r.2.2 with
  | some err => dockerCli.IsErrNotFound err || isErrNotSwarmManager dockerCli err
  | none => false

/-- A client whose daemon knows the reference "web" as a service only, and is
asked from a node that is a swarm manager: an error is a not-found error when
its text begins with "No such". -/
def sampleClient : Client where
  ContainerInspectWithRaw := fun _ _ => (none, none, some (.other "No such container"))
  ImageInspectWithRaw := fun _ => (none, none, some (.other "No such image"))
  NetworkInspectWithRaw := fun _ => (none, none, some (.other "No such network"))
  NodeInspectWithRaw := fun _ => (none, none, some (.other "No such node"))
  ServiceInspectWithRaw := fun ref => (some ref, some [123, 125], none)
  TaskInspectWithRaw := fun _ => (none, none, some (.other "No such task"))
  VolumeInspectWithRaw := fun _ => (none, none, some (.other "No such volume"))
  IsErrNotFound := fun e =>
    match e with
    | .other text => "No such".isPrefixOf text
    | _ => false
  Error := fun e =>
    match e with
    | .other text => text
    | .StatusError s => s.Status

end system

namespace system

/-- The calls of the inspectors of the table for the reference `ref`, in the
order of the table: the results and the events of each. -/
def lookups (dockerCli : Client) (getSize : Bool) (ref : String) :
    List (Inspected × List Event) :=
  (inspectAutodetect dockerCli getSize).map (fun d => d.ObjectInspector ref)

end system

namespace system

/-- The words of the claim about a lookup without a type constraint: of the
calls `rs` of the inspectors, in order, the results of the first that is not
skipped and the events up to it; the "no such item" error when all are
skipped. -/
def firstFound (dockerCli : Client) (ref : String) :
    List (Inspected × List Event) → Inspected × List Event
  | [] => ((none, none, some (.other ("错误: 没有该项目: " ++ ref))), [])
  | r :: rs =>
    if skipped dockerCli r.1 then
      ((firstFound dockerCli ref rs).1, r.2 ++ (firstFound dockerCli ref rs).2)
    else r

end system

/-! ## api/client/container/ps.go -/

namespace container

/-- The struct `psOptions`. -/
structure psOptions where
  quiet : Bool := false
  size : Bool := false
  all : Bool := false
  noTrunc : Bool := false
  nLatest : Bool := false
  last : Int := -1
  format : String := ""
  filter : List String := []
deriving DecidableEq, Repr

/-- The struct `types.ContainerListOptions`, with the fields
`buildContainerListOptions` sets; a value of `filters.Args` is the list of the
`--filter` values parsed into it. -/
structure ContainerListOptions where
  All : Bool
  Limit : Int
  Size : Bool
  Filter : List String
deriving DecidableEq, Repr

/-- The struct `formatter.Context`, with the fields `runPs` sets. -/
structure Context where
  Output : Stream
  Format : String
  Quiet : Bool
  Trunc : Bool
deriving DecidableEq, Repr

/-- The struct `formatter.ContainerContext`; a container of the list is
identified by its ID. -/
structure ContainerContext where
  Context : Context
  Size : Bool
  Containers : List String
deriving DecidableEq, Repr

/-- What `runPs` calls outside the modelled files: `filters.ParseFlag`,
`templates.Parse` followed by the `Execute` of the parsed template on the
`preProcessor` (its error, and whether the template calls `Size`), the
`ContainerList` request, and the `PsFormat` of the client's configuration
file. -/
structure PsCollaborators where
  ParseFlag : String → List String → List String × Option GoError
  Parse : String → Option GoError
  Execute : String → Bool × Option GoError
  ContainerList : ContainerListOptions → List String × Option GoError
  PsFormat : String

/-- What `runPs` does, in program order. -/
inductive PsEvent where
  | ContainerList (options : ContainerListOptions)
  /-- The call `psCtx.Write()`. -/
  | Write (psCtx : ContainerContext)
deriving DecidableEq, Repr

/-- The loop `for _, f := range opts.filter` of `buildContainerListOptions`,
on the values that are left. -/
def buildContainerListOptions.filters (dockerCli : PsCollaborators) (filter : List String) :
    List String → Except GoError (List String)
  | [] => .ok filter
  | f :: rest =>
    match dockerCli.ParseFlag f filter with
    | (_, some err) => .error err
    | (filter, none) => buildContainerListOptions.filters dockerCli filter rest

/-- The function `buildContainerListOptions`: the options, or the error with
which it returns nil. -/
def buildContainerListOptions (dockerCli : PsCollaborators) (opts : psOptions) :
    Except GoError ContainerListOptions :=
  let options : ContainerListOptions :=
    { All := opts.all, Limit := opts.last, Size := opts.size, Filter := [] }
  let options := if opts.nLatest && opts.last == -1 then { options with Limit := 1 } else options
  match buildContainerListOptions.filters dockerCli options.Filter opts.filter with
  | .error err => .error err
  | .ok filter =>
  let options := { options with Filter := filter }
  -- Currently only used with Size, so we can determine if the user
  -- put {{.Size}} in their format.
  match dockerCli.Parse opts.format with
  | some err => .error err
  | none =>
  match dockerCli.Execute opts.format with
  | (_, some err) => .error err
  | (callsSize, none) =>
  .ok (if callsSize then { options with Size := true } else options)

/-- The function `runPs`: the returned error and the events of the run. -/
def runPs (dockerCli : PsCollaborators) (opts : psOptions) : Option GoError × List PsEvent :=
  match buildContainerListOptions dockerCli opts with
  | .error err => (some err, [])
  | .ok listOptions =>
  match dockerCli.ContainerList listOptions with
  | (_, some err) => (some err, [.ContainerList listOptions])
  | (containers, none) =>
  let f := opts.format
  let f :=
    if f.length == 0 then
      if dockerCli.PsFormat.length > 0 && !opts.quiet then dockerCli.PsFormat
      else "table"
    else f
  let psCtx : ContainerContext :=
    { Context := { Output := .Out, Format := f, Quiet := opts.quiet, Trunc := !opts.noTrunc }
      Size := listOptions.Size
      Containers := containers }
  (none, [.ContainerList listOptions, .Write psCtx])

/-- A daemon with the two containers "c1" and "c2", a client configuration
with the given `PsFormat`, and templates that parse and run without error. -/
def samplePs (psFormat : String) : PsCollaborators where
  ParseFlag := fun f filter => (filter ++ [f], none)
  Parse := fun _ => none
  Execute := fun _ => (false, none)
  ContainerList := fun _ => (["c1", "c2"], none)
  PsFormat := psFormat

end container

/-! ## cli/flags/common.go -/

namespace tlsconfig

/-- The struct `tlsconfig.Options`, with the fields `CommonOptions` uses. -/
structure Options where
  CAFile : String := ""
  CertFile : String := ""
  KeyFile : String := ""
  InsecureSkipVerify : Bool := false
deriving DecidableEq, Repr

end tlsconfig

namespace flags

/-- The constant `FlagTLSVerify`. -/
def FlagTLSVerify : String := "tlsverify"

/-- The struct `CommonOptions`; `TLSOptions` is a pointer, `none` being nil. -/
structure CommonOptions where
  Debug : Bool := false
  Hosts : List String := []
  LogLevel : String := ""
  TLS : Bool := false
  TLSVerify : Bool := false
  TLSOptions : Option tlsconfig.Options := none
  TrustKey : String := ""
deriving DecidableEq, Repr

/-- What `SetDefaultOptions` asks outside the modelled files: whether a flag
was given on the command line (`flags.Changed`), and whether `os.Stat` of a
path fails with an error for which `os.IsNotExist` holds. -/
structure Env where
  Changed : String → Bool
  IsNotExist : String → Bool

/-- The method `CommonOptions.SetDefaultOptions`: the options it leaves, or
`none` when it panics on the nil `TLSOptions` it dereferences. -/
def CommonOptions.SetDefaultOptions (commonOpts : CommonOptions) (env : Env) :
    Option CommonOptions :=
  -- Regardless of whether the user sets it to true or false, if they
  -- specify --tlsverify at all then we need to turn on tls
  let commonOpts :=
    if env.Changed FlagTLSVerify || commonOpts.TLSVerify then { commonOpts with TLS := true }
    else commonOpts
  if !commonOpts.TLS then
    some { commonOpts with TLSOptions := none }
  else
    match commonOpts.TLSOptions with
    | none => none
    | some tlsOptions =>
      let tlsOptions := { tlsOptions with InsecureSkipVerify := !commonOpts.TLSVerify }
      -- Reset CertFile and KeyFile to empty string if the user did not specify
      -- the respective flags and the respective default files were not found.
      let tlsOptions :=
        if !env.Changed "tlscert" then
          if env.IsNotExist tlsOptions.CertFile then { tlsOptions with CertFile := "" }
          else tlsOptions
        else tlsOptions
      let tlsOptions :=
        if !env.Changed "tlskey" then
          if env.IsNotExist tlsOptions.KeyFile then { tlsOptions with KeyFile := "" }
          else tlsOptions
        else tlsOptions
      some { commonOpts with TLSOptions := some tlsOptions }

end flags

/-! ## cli/cobra.go -/

namespace cobra

/-- What `FlagErrorFunc` reads of a `cobra.Command`: the results of its
methods `HasSubCommands`, `UsageString` and `CommandPath`. -/
structure Command where
  HasSubCommands : Bool
  UsageString : String
  CommandPath : String
deriving DecidableEq, Repr

end cobra

namespace cli

/-- The function `FlagErrorFunc`. The verb `%s` prints an error through its
`Error` method, which is the parameter `errorText`. -/
def FlagErrorFunc (errorText : GoError → String) (cmd : cobra.Command) (err : Option GoError) :
    Option GoError :=
  match err with
  | none => none
  | some err =>
    let usage := if cmd.HasSubCommands then "\n\n" ++ cmd.UsageString else ""
    some (.StatusError
      { Status := errorText err ++ "\nSee \x27" ++ cmd.CommandPath ++ " --help\x27." ++ usage
        StatusCode := 125 })

end cli

/-! ## api/client/container/update.go -/

/-- The function `strings.Join` of Go's library. -/
def strings.Join (a : List String) (sep : String) : String :=
  sep.intercalate a

namespace container

/-- The struct `updateOptions`. -/
structure updateOptions where
  blkioWeight : Nat := 0
  cpuPeriod : Int := 0
  cpuQuota : Int := 0
  cpusetCpus : String := ""
  cpusetMems : String := ""
  cpuShares : Int := 0
  memoryString : String := ""
  memoryReservation : String := ""
  memorySwap : String := ""
  kernelMemory : String := ""
  restartPolicy : String := ""
  nFlag : Int := 0
  containers : List String := []
deriving DecidableEq, Repr

/-- The struct `containertypes.RestartPolicy`. -/
structure RestartPolicy where
  Name : String := ""
  MaximumRetryCount : Int := 0
deriving DecidableEq, Repr

/-- The struct `containertypes.Resources`, with the fields `runUpdate` sets. -/
structure Resources where
  BlkioWeight : Nat
  CpusetCpus : String
  CpusetMems : String
  CPUShares : Int
  Memory : Int
  MemoryReservation : Int
  MemorySwap : Int
  KernelMemory : Int
  CPUPeriod : Int
  CPUQuota : Int
deriving DecidableEq, Repr

/-- The struct `containertypes.UpdateConfig`. -/
structure UpdateConfig where
  Resources : Resources
  RestartPolicy : RestartPolicy
deriving DecidableEq, Repr

/-- What `runUpdate` calls outside the modelled files: `units.RAMInBytes`,
`runconfigopts.ParseRestartPolicy`, the `ContainerUpdate` request (the
warnings of its response, and its error) and the `Error` method of an
error. -/
structure UpdateCollaborators where
  RAMInBytes : String → Int × Option GoError
  ParseRestartPolicy : String → RestartPolicy × Option GoError
  ContainerUpdate : String → UpdateConfig → List String × Option GoError
  Error : GoError → String

/-- What `runUpdate` does, in program order. -/
inductive UpdateEvent where
  | RAMInBytes (size : String)
  | ParseRestartPolicy (policy : String)
  | ContainerUpdate (container : String) (updateConfig : UpdateConfig)
  | Fprintf (w : Stream) (format : String) (args : List String)
deriving DecidableEq, Repr

/-- The event is an update request. -/
def UpdateEvent.isContainerUpdate : UpdateEvent → Bool
  | .ContainerUpdate _ _ => true
  | _ => false

/-- The event is a write. -/
def UpdateEvent.isWrite : UpdateEvent → Bool
  | .Fprintf _ _ _ => true
  | _ => false

/-- The pattern of lines 73 to 107 of `runUpdate`: a variable that is zero,
and set from `units.RAMInBytes` when the option is not empty. -/
def runUpdate.bytes (dockerCli : UpdateCollaborators) (option : String) :
    (Int × Option GoError) × List UpdateEvent :=
  if option ≠ "" then (dockerCli.RAMInBytes option, [.RAMInBytes option])
  else ((0, none), [])

/-- Lines 73 to 133 of `runUpdate`: the parsing of the option values into the
update configuration, or the first error. -/
def runUpdate.updateConfig (dockerCli : UpdateCollaborators) (opts : updateOptions) :
    Except GoError UpdateConfig × List UpdateEvent :=
  match runUpdate.bytes dockerCli opts.memoryString with
  | ((_, some err), ev) => (.error err, ev)
  | ((memory, none), ev1) =>
  match runUpdate.bytes dockerCli opts.memoryReservation with
  | ((_, some err), ev) => (.error err, ev1 ++ ev)
  | ((memoryReservation, none), ev2) =>
  match (if opts.memorySwap ≠ "" then
      (if opts.memorySwap = "-1" then ((-1, none), [])
       else runUpdate.bytes dockerCli opts.memorySwap)
    else ((0, none), [])) with
  | ((_, some err), ev) => (.error err, ev1 ++ ev2 ++ ev)
  | ((memorySwap, none), ev3) =>
  match runUpdate.bytes dockerCli opts.kernelMemory with
  | ((_, some err), ev) => (.error err, ev1 ++ ev2 ++ ev3 ++ ev)
  | ((kernelMemory, none), ev4) =>
  match (if opts.restartPolicy ≠ "" then
      (dockerCli.ParseRestartPolicy opts.restartPolicy,
        [UpdateEvent.ParseRestartPolicy opts.restartPolicy])
    else (({ }, none), [])) with
  | ((_, some err), ev) => (.error err, ev1 ++ ev2 ++ ev3 ++ ev4 ++ ev)
  | ((restartPolicy, none), ev5) =>
  let resources : Resources :=
    { BlkioWeight := opts.blkioWeight
      CpusetCpus := opts.cpusetCpus
      CpusetMems := opts.cpusetMems
      CPUShares := opts.cpuShares
      Memory := memory
      MemoryReservation := memoryReservation
      MemorySwap := memorySwap
      KernelMemory := kernelMemory
      CPUPeriod := opts.cpuPeriod
      CPUQuota := opts.cpuQuota }
  (.ok { Resources := resources, RestartPolicy := restartPolicy },
    ev1 ++ ev2 ++ ev3 ++ ev4 ++ ev5)

/-- The loop `for _, container := range opts.containers` of `runUpdate`, on
the containers that are left: the warnings and the error messages gathered,
and the events. -/
def runUpdate.range (dockerCli : UpdateCollaborators) (updateConfig : UpdateConfig) :
    List String → List String → List String → List String × List String × List UpdateEvent
  | [], warns, errs => (warns, errs, [])
  | container :: rest, warns, errs =>
    match dockerCli.ContainerUpdate container updateConfig with
    | (warnings, some err) =>
      let r := runUpdate.range dockerCli updateConfig rest (warns ++ warnings)
        (errs ++ [dockerCli.Error err])
      (r.1, r.2.1, .ContainerUpdate container updateConfig :: r.2.2)
    | (warnings, none) =>
      let r := runUpdate.range dockerCli updateConfig rest (warns ++ warnings) errs
      (r.1, r.2.1,
        .ContainerUpdate container updateConfig :: .Fprintf .Out "%s\n" [container] :: r.2.2)

/-- The function `runUpdate`: the returned error and the events of the run. -/
def runUpdate (dockerCli : UpdateCollaborators) (opts : updateOptions) :
    Option GoError × List UpdateEvent :=
  if opts.nFlag == 0 then
    (some (.other "当使用此命令时，您必须提供一个或多个命令参数。"), [])
  else
  match runUpdate.updateConfig dockerCli opts with
  | (.error err, events) => (some err, events)
  | (.ok updateConfig, events) =>
  let r := runUpdate.range dockerCli updateConfig opts.containers [] []
  let warns := r.1
  let errs := r.2.1
  let events := events ++ r.2.2
  let events :=
    if warns.length > 0 then events ++ [.Fprintf .Out "%s" [strings.Join warns "\n"]]
    else events
  if errs.length > 0 then
    (some (.other (strings.Join errs "\n")), events)
  else
    (none, events)

/-- A daemon that refuses to update the container "gone" and warns about
"c2"; every size reads as 4 MiB. -/
def sampleUpdate : UpdateCollaborators where
  RAMInBytes := fun _ => (4194304, none)
  ParseRestartPolicy := fun s => ({ Name := s }, none)
  ContainerUpdate := fun c _ =>
    if c = "gone" then ([], some (.other "No such container: gone"))
    else if c = "c2" then (["swap limit ignored"], none)
    else ([], none)
  Error := fun e =>
    match e with
    | .other text => text
    | .StatusError s => s.Status

/-- A sample invocation for evaluation: `docker update -m 4m c1 gone c2`. -/
def sampleUpdateOptions : updateOptions :=
  { nFlag := 1, memoryString := "4m", containers := ["c1", "gone", "c2"] }

/-- The update configuration that `sampleUpdateOptions` parses into under
`sampleUpdate`. -/
def sampleUpdateConfig : UpdateConfig :=
  { Resources :=
      { BlkioWeight := 0, CpusetCpus := "", CpusetMems := "", CPUShares := 0,
        Memory := 4194304, MemoryReservation := 0, MemorySwap := 0, KernelMemory := 0,
        CPUPeriod := 0, CPUQuota := 0 },
    RestartPolicy := { } }

end container

/-! ## api/client/system/inspect.go: `runInspect` -/

namespace system

/-- The struct `inspectOptions`. -/
structure inspectOptions where
  format : String := ""
  inspectType : String := ""
  size : Bool := false
  ids : List String := []
deriving DecidableEq, Repr

/-- What `runInspect` calls outside the modelled files: the function
`inspect.Inspect` (its error and its events, for the output stream, the
references, the format and the lookup it is given) and the quoting of a string
by the verb `%q`. -/
structure InspectEnv where
  Inspect : Stream → List String → String → GetRefFunc → Option GoError × List Event
  quote : String → String

/-- The function `runInspect`: the returned error and the events of the
run. -/
def runInspect (dockerCli : Client) (env : InspectEnv) (opts : inspectOptions) :
    Option GoError × List Event :=
  if opts.inspectType ∈
      ["", "container", "image", "node", "network", "service", "volume", "task"] then
    env.Inspect .Out opts.ids opts.format (inspectAll dockerCli opts.size opts.inspectType)
  else
    (some (.other ("对 --type而言，" ++ env.quote opts.inspectType ++ " 不是一个有效的值")), [])

end system

/-! ## api/client/swarm/join_token.go -/

namespace swarm

/-- The struct `swarm.JoinTokens`. -/
structure JoinTokens where
  Worker : String
  Manager : String
deriving DecidableEq, Repr

/-- The struct `swarm.Swarm`, with the fields the command reads; the version
and the specification are identified by a number and a text. -/
structure Swarm where
  Version : Nat
  Spec : String
  JoinTokens : JoinTokens
deriving DecidableEq, Repr

/-- The struct `swarm.UpdateFlags`. -/
structure UpdateFlags where
  RotateWorkerToken : Bool := false
  RotateManagerToken : Bool := false
deriving DecidableEq, Repr

/-- The struct `swarm.Node`, with the field the command reads: the address of
`ManagerStatus`, `none` when `ManagerStatus` is nil. -/
structure Node where
  ManagerStatus : Option String
deriving DecidableEq, Repr

/-- The engine API client as the join-token command uses it. What
`SwarmInspect` returns may depend on the rotation that was requested before,
which is its argument (`none` when none was). `Info` gives the node ID. -/
structure Client where
  SwarmInspect : Option UpdateFlags → Swarm × Option GoError
  SwarmUpdate : Nat → String → UpdateFlags → Option GoError
  Info : String × Option GoError
  NodeInspectWithRaw : String → Node × Option GoError

/-- What the command does, in program order. -/
inductive Event where
  | SwarmInspect
  | SwarmUpdate (version : Nat) (spec : String) (flags : UpdateFlags)
  | Info
  | NodeInspectWithRaw (nodeID : String)
  | Fprintf (w : Stream) (format : String) (args : List String)
  | Fprintln (w : Stream) (args : List String)
deriving DecidableEq, Repr

/-- The event is a request to the daemon. -/
def Event.isRequest : Event → Bool
  | .Fprintf _ _ _ => false
  | .Fprintln _ _ => false
  | _ => true

/-- The event is a rotation request. -/
def Event.isSwarmUpdate : Event → Bool
  | .SwarmUpdate _ _ _ => true
  | _ => false

/-- The function `printJoinCommand`, for the rotation requested before. -/
def printJoinCommand (dockerCli : Client) (rotated : Option UpdateFlags) (nodeID : String)
    (worker manager : Bool) : Option GoError × List Event :=
  match dockerCli.SwarmInspect rotated with
  | (_, some err) => (some err, [.SwarmInspect])
  | (swarm, none) =>
  match dockerCli.NodeInspectWithRaw nodeID with
  | (_, some err) => (some err, [.SwarmInspect, .NodeInspectWithRaw nodeID])
  | (node, none) =>
  let events : List Event := [.SwarmInspect, .NodeInspectWithRaw nodeID]
  match node.ManagerStatus with
  | some addr =>
    let events :=
      if worker then
        events ++ [.Fprintf .Out
          "如需在此Swarm集群中加入一个工作者，在工作者节点上运行以下命令:\n\n    docker swarm join \\\n    --token %s \\\n    %s\n\n"
          [swarm.JoinTokens.Worker, addr]]
      else events
    let events :=
      if manager then
        events ++ [.Fprintf .Out
          "如需在此Swarm集群中加入一个管理者，在管理者节点上运行以下命令:\n\n    docker swarm join \\\n    --token %s \\\n    %s\n\n"
          [swarm.JoinTokens.Manager, addr]]
      else events
    (none, events)
  | none => (none, events)

/-- Lines 53 to 71 of the closure `RunE` of `newJoinTokenCommand`: the display
of the token, after the rotation if any. -/
def newJoinTokenCommand.display (dockerCli : Client) (quiet : Bool)
    (rotated : Option UpdateFlags) (worker manager : Bool) : Option GoError × List Event :=
  match dockerCli.SwarmInspect rotated with
  | (_, some err) => (some err, [.SwarmInspect])
  | (swarm, none) =>
  if quiet then
    if worker then
      (none, [.SwarmInspect, .Fprintln .Out [swarm.JoinTokens.Worker]])
    else
      (none, [.SwarmInspect, .Fprintln .Out [swarm.JoinTokens.Manager]])
  else
    match dockerCli.Info with
    | (_, some err) => (some err, [.SwarmInspect, .Info])
    | (nodeID, none) =>
      let r := printJoinCommand dockerCli rotated nodeID worker manager
      (r.1, [.SwarmInspect, .Info] ++ r.2)

/-- The closure `RunE` of `newJoinTokenCommand`, for the values of the flags
`--rotate` and `--quiet` and the one argument `args[0]`: the returned error
and the events of the run. -/
def newJoinTokenCommand.RunE (dockerCli : Client) (rotate quiet : Bool) (arg0 : String) :
    Option GoError × List Event :=
  let worker := arg0 == "worker"
  let manager := arg0 == "manager"
  if !worker && !manager then
    (some (.other ("未知的角色 " ++ arg0)), [])
  else
  if rotate then
    match dockerCli.SwarmInspect none with
    | (_, some err) => (some err, [.SwarmInspect])
    | (swarm, none) =>
    let flags : UpdateFlags := { RotateWorkerToken := worker, RotateManagerToken := manager }
    let events : List Event := [.SwarmInspect, .SwarmUpdate swarm.Version swarm.Spec flags]
    match dockerCli.SwarmUpdate swarm.Version swarm.Spec flags with
    | some err => (some err, events)
    | none =>
    let events :=
      if !quiet then events ++ [.Fprintf .Out "成功轮换 %s 加入令牌。\n\n" [arg0]] else events
    let r := newJoinTokenCommand.display dockerCli quiet (some flags) worker manager
    (r.1, events ++ r.2)
  else
    newJoinTokenCommand.display dockerCli quiet none worker manager

/-- A manager node of a swarm whose tokens are "W1" and "M1", and "W2" and
"M2" once the rotation of the respective token was requested. -/
def sampleSwarm : Client where
  SwarmInspect := fun rotated =>
    match rotated with
    | none => (⟨7, "spec", ⟨"W1", "M1"⟩⟩, none)
    | some flags =>
      (⟨8, "spec", ⟨if flags.RotateWorkerToken then "W2" else "W1",
        if flags.RotateManagerToken then "M2" else "M1"⟩⟩, none)
  SwarmUpdate := fun _ _ _ => none
  Info := ("node1", none)
  NodeInspectWithRaw := fun _ => (⟨some "10.0.0.1:2377"⟩, none)

end swarm

open container

/-! ## Helper lemmas -/

theorem parseExec_err (opts : execOptions) (container : String) (execCmd : List String) :
    (parseExec opts container execCmd).2 = none := rfl

theorem runExec_eq (dockerCli : Collaborators) (w : World) (opts : execOptions)
    (container : String) (execCmd : List String) :
    runExec dockerCli w opts container execCmd =
      if container = "" then (some (.StatusError { StatusCode := 1 }), w)
      else runExec.create dockerCli (sentWorld w opts container execCmd)
        (sentConfig w opts container execCmd) container := by
  unfold runExec sentWorld sentConfig
  by_cases hc : container = ""
  · simp [hc]
  · by_cases hk : opts.detachKeys = ""
    · simp [hc, hk, parseExec_err]
    · simp [hc, hk, parseExec_err]

theorem attaches_iff (dockerCli : Collaborators) (w : World) (opts : execOptions)
    (container : String) (execCmd : List String) :
    attaches dockerCli w opts container execCmd = true ↔
      opts.detach = false ∧ container ≠ "" ∧
      (dockerCli.ContainerExecCreate container (sentConfig w opts container execCmd)).2 = none ∧
      execIDOf dockerCli w opts container execCmd ≠ "" ∧
      dockerCli.CheckTtyInput (sentConfig w opts container execCmd).AttachStdin
        (sentConfig w opts container execCmd).Tty = none ∧
      (dockerCli.ContainerExecAttach (execIDOf dockerCli w opts container execCmd)
        (sentConfig w opts container execCmd)).2 = none := by
  unfold attaches created
  simp only [Bool.and_eq_true, Bool.not_eq_true', decide_eq_true_eq, Option.isNone_iff_eq_none]
  tauto

theorem sentConfig_Detach (w : World) (opts : execOptions) (container : String)
    (execCmd : List String) : (sentConfig w opts container execCmd).Detach = opts.detach := by
  unfold sentConfig parseExec
  cases opts.detach <;> cases opts.interactive <;> rfl

theorem sentConfig_fields (w : World) (opts : execOptions) (container : String)
    (execCmd : List String) (hd : opts.detach = false) :
    (sentConfig w opts container execCmd).Tty = opts.tty ∧
    (sentConfig w opts container execCmd).AttachStdin = opts.interactive ∧
    (sentConfig w opts container execCmd).AttachStdout = true ∧
    (sentConfig w opts container execCmd).AttachStderr = true := by
  unfold sentConfig parseExec
  rw [hd]
  cases opts.interactive <;> simp

theorem session_fst (dockerCli : Collaborators) (w : World) (cfg : ExecConfig) (id : String)
    (i o e : Option Stream) (resp : HijackedResponse) :
    (runExec.session dockerCli w cfg id i o e resp).1 =
      match (dockerCli.HoldHijackedConnection cfg.Tty i o e resp).err with
      | some err => some err
      | none =>
        match dockerCli.GetExecExitCode id with
        | (_, _, some err) => some err
        | (_, status, none) =>
          if status ≠ 0 then some (.StatusError { StatusCode := status }) else none := by
  unfold runExec.session
  simp only []
  split
  · rfl
  · split
    · rfl
    · split <;> rfl

theorem session_snd (dockerCli : Collaborators) (w : World) (cfg : ExecConfig) (id : String)
    (i o e : Option Stream) (resp : HijackedResponse) :
    (runExec.session dockerCli w cfg id i o e resp).2 =
      { events := w.events ++ sessionEvents dockerCli cfg id i o e resp
        DetachKeys := w.DetachKeys } := by
  unfold runExec.session sessionEvents
  simp only [World.emit]
  split
  · split
    · split <;> simp
    · simp
  · split
    · split
      · split <;> simp
      · simp
    · split
      · split
        · split <;> simp
        · simp
      · split
        · split <;> simp
        · simp

theorem create_attached (dockerCli : Collaborators) (w : World) (cfg : ExecConfig)
    (container : String) (resp : HijackedResponse)
    (hd : cfg.Detach = false)
    (hcr : (dockerCli.ContainerExecCreate container cfg).2 = none)
    (hid : (dockerCli.ContainerExecCreate container cfg).1.ID ≠ "")
    (hchk : dockerCli.CheckTtyInput cfg.AttachStdin cfg.Tty = none)
    (hatt : dockerCli.ContainerExecAttach (dockerCli.ContainerExecCreate container cfg).1.ID cfg
      = (resp, none)) :
    runExec.create dockerCli w cfg container =
      ((runExec.session dockerCli w cfg (dockerCli.ContainerExecCreate container cfg).1.ID
          (if cfg.AttachStdin then some .In else none)
          (if cfg.AttachStdout then some .Out else none)
          (if cfg.AttachStderr then (if cfg.Tty then some .Out else some .Err) else none) resp).1,
       { events := w.events ++
          ([.ContainerExecCreate container cfg, .CheckTtyInput cfg.AttachStdin cfg.Tty,
            .ContainerExecAttach (dockerCli.ContainerExecCreate container cfg).1.ID cfg] ++
           sessionEvents dockerCli cfg (dockerCli.ContainerExecCreate container cfg).1.ID
             (if cfg.AttachStdin then some .In else none)
             (if cfg.AttachStdout then some .Out else none)
             (if cfg.AttachStderr then (if cfg.Tty then some .Out else some .Err) else none) resp ++
           [.Close resp])
         DetachKeys := w.DetachKeys }) := by
  unfold runExec.create
  rcases hcreate : dockerCli.ContainerExecCreate container cfg with ⟨response, cerr⟩
  rw [hcreate] at hcr hid hatt
  simp only [] at hcr hid hatt
  subst hcr
  simp only [hid, if_false, hd, Bool.not_false, if_true, hchk]
  unfold runExec.interactive
  simp only [hatt, session_fst, session_snd, World.emit]
  simp [List.append_assoc]

/-- The events of a run that does not attach: none of them belongs to a
session. -/
theorem create_not_attached (dockerCli : Collaborators) (w : World) (cfg : ExecConfig)
    (container : String)
    (hn : ¬ (cfg.Detach = false ∧ (dockerCli.ContainerExecCreate container cfg).2 = none ∧
      (dockerCli.ContainerExecCreate container cfg).1.ID ≠ "" ∧
      dockerCli.CheckTtyInput cfg.AttachStdin cfg.Tty = none ∧
      (dockerCli.ContainerExecAttach (dockerCli.ContainerExecCreate container cfg).1.ID cfg).2
        = none)) :
    (runExec.create dockerCli w cfg container).2.DetachKeys = w.DetachKeys ∧
    w.events <+: (runExec.create dockerCli w cfg container).2.events ∧
    ∀ e ∈ (runExec.create dockerCli w cfg container).2.events.drop w.events.length,
      e.isHoldHijackedConnection = false ∧ e.isMonitorTtySize = false ∧
        e.isGetExecExitCode = false ∧ e.isClose = false ∧ e.writesTo .Err = false := by
  unfold runExec.create
  rcases hcreate : dockerCli.ContainerExecCreate container cfg with ⟨response, cerr⟩
  rw [hcreate] at hn
  simp only [] at hn
  cases cerr with
  | some e =>
    simp [World.emit, Event.isHoldHijackedConnection, Event.isMonitorTtySize,
      Event.isGetExecExitCode, Event.isClose, Event.writesTo]
  | none =>
    simp only [true_and] at hn
    by_cases hid : response.ID = ""
    · simp [hid, World.emit, Event.isHoldHijackedConnection, Event.isMonitorTtySize,
        Event.isGetExecExitCode, Event.isClose, Event.writesTo]
    · simp only [hid, if_false]
      cases hd : cfg.Detach with
      | true =>
        simp only [Bool.not_true, Bool.false_eq_true, if_false]
        split <;> simp [World.emit, Event.isHoldHijackedConnection,
          Event.isMonitorTtySize, Event.isGetExecExitCode, Event.isClose, Event.writesTo]
      | false =>
        simp only [Bool.not_false, if_true]
        cases hchk : dockerCli.CheckTtyInput cfg.AttachStdin cfg.Tty with
        | some e =>
          simp [World.emit, Event.isHoldHijackedConnection, Event.isMonitorTtySize,
            Event.isGetExecExitCode, Event.isClose, Event.writesTo]
        | none =>
          unfold runExec.interactive
          rcases hatt : dockerCli.ContainerExecAttach response.ID cfg with ⟨resp, aerr⟩
          cases aerr with
          | some e =>
            simp [World.emit, Event.isHoldHijackedConnection, Event.isMonitorTtySize,
              Event.isGetExecExitCode, Event.isClose, Event.writesTo]
          | none =>
            exfalso
            apply hn
            simp [hd, hid, hchk, hatt]

theorem runExec_attached (dockerCli : Collaborators) (w : World) (opts : execOptions)
    (container : String) (execCmd : List String)
    (h : attaches dockerCli w opts container execCmd = true) :
    runExec dockerCli w opts container execCmd =
      ((match (pumpOf dockerCli w opts container execCmd).err with
        | some err => some err
        | none =>
          match exitCodeOf dockerCli w opts container execCmd with
          | (_, _, some err) => some err
          | (_, status, none) =>
            if status ≠ 0 then some (.StatusError { StatusCode := status }) else none),
       { events := w.events ++
          ([.ContainerExecCreate container (sentConfig w opts container execCmd),
            .CheckTtyInput opts.interactive opts.tty,
            .ContainerExecAttach (execIDOf dockerCli w opts container execCmd)
              (sentConfig w opts container execCmd)] ++
           sessionEvents dockerCli (sentConfig w opts container execCmd)
             (execIDOf dockerCli w opts container execCmd)
             (if opts.interactive then some .In else none) (some .Out)
             (some (if opts.tty then .Out else .Err))
             (respOf dockerCli w opts container execCmd) ++
           [.Close (respOf dockerCli w opts container execCmd)])
         DetachKeys := (sentConfig w opts container execCmd).DetachKeys }) := by
  rw [attaches_iff] at h
  obtain ⟨hd, hc, hcr, hid, hchk, hatt⟩ := h
  obtain ⟨f1, f2, f3, f4⟩ := sentConfig_fields w opts container execCmd hd
  have hdet := sentConfig_Detach w opts container execCmd
  rw [hd] at hdet
  rw [runExec_eq, if_neg hc]
  unfold execIDOf at hid hatt
  rw [create_attached dockerCli _ _ container (respOf dockerCli w opts container execCmd)
    hdet hcr hid hchk (by unfold respOf execIDOf; exact Prod.ext rfl hatt)]
  rw [session_fst]
  have ht : (if opts.tty = true then some Stream.Out else some Stream.Err)
      = some (if opts.tty = true then Stream.Out else Stream.Err) := by
    cases opts.tty <;> rfl
  simp only [f1, f2, f3, f4, if_true, ht, pumpOf, exitCodeOf, execIDOf, sentWorld]

theorem trace_attached (dockerCli : Collaborators) (w : World) (opts : execOptions)
    (container : String) (execCmd : List String)
    (h : attaches dockerCli w opts container execCmd = true) :
    trace dockerCli w opts container execCmd =
      [.ContainerExecCreate container (sentConfig w opts container execCmd),
        .CheckTtyInput opts.interactive opts.tty,
        .ContainerExecAttach (execIDOf dockerCli w opts container execCmd)
          (sentConfig w opts container execCmd)] ++
      sessionEvents dockerCli (sentConfig w opts container execCmd)
        (execIDOf dockerCli w opts container execCmd)
        (if opts.interactive then some .In else none) (some .Out)
        (some (if opts.tty then .Out else .Err))
        (respOf dockerCli w opts container execCmd) ++
      [.Close (respOf dockerCli w opts container execCmd)] := by
  unfold trace
  rw [runExec_attached dockerCli w opts container execCmd h]
  simp

/-- The events of a run that does not attach: none of them belongs to a
session, and none is a write to the client's stderr. -/
theorem trace_not_attached (dockerCli : Collaborators) (w : World) (opts : execOptions)
    (container : String) (execCmd : List String)
    (h : attaches dockerCli w opts container execCmd = false) :
    ∀ e ∈ trace dockerCli w opts container execCmd,
      e.isHoldHijackedConnection = false ∧ e.isMonitorTtySize = false ∧
      e.isGetExecExitCode = false ∧ e.isClose = false ∧ e.writesTo .Err = false := by
  have hn : ¬ (attaches dockerCli w opts container execCmd = true) := by simp [h]
  rw [attaches_iff] at hn
  unfold trace
  rw [runExec_eq]
  by_cases hc : container = ""
  · simp [hc]
  · rw [if_neg hc]
    have hdet := sentConfig_Detach w opts container execCmd
    have := (create_not_attached dockerCli (sentWorld w opts container execCmd)
      (sentConfig w opts container execCmd) container (by
        intro hh
        apply hn
        unfold execIDOf
        rw [← hdet]
        exact ⟨hh.1, hc, hh.2⟩)).2.2
    exact this

theorem runExec_fst_attached (dockerCli : Collaborators) (w : World) (opts : execOptions)
    (container : String) (execCmd : List String)
    (h : attaches dockerCli w opts container execCmd = true) :
    (runExec dockerCli w opts container execCmd).1 =
      match (pumpOf dockerCli w opts container execCmd).err with
      | some err => some err
      | none =>
        match exitCodeOf dockerCli w opts container execCmd with
        | (_, _, some err) => some err
        | (_, status, none) =>
          if status ≠ 0 then some (.StatusError { StatusCode := status }) else none := by
  rw [runExec_attached dockerCli w opts container execCmd h]

theorem sessionEvents_filter_exit (dockerCli : Collaborators) (cfg : ExecConfig) (id : String)
    (i o e : Option Stream) (resp : HijackedResponse) :
    (sessionEvents dockerCli cfg id i o e resp).filter Event.isGetExecExitCode =
      if (dockerCli.HoldHijackedConnection cfg.Tty i o e resp).err = none
      then [.GetExecExitCode id] else [] := by
  unfold sessionEvents
  cases (dockerCli.HoldHijackedConnection cfg.Tty i o e resp).err <;>
    cases (cfg.Tty && dockerCli.IsTerminalIn) <;>
    cases dockerCli.MonitorTtySize id true <;>
    simp [List.filter_cons, Event.isGetExecExitCode]

theorem filter_eq_nil_of_forall {p : Event → Bool} {l : List Event}
    (h : ∀ e ∈ l, p e = false) : l.filter p = [] := by
  rw [List.filter_eq_nil_iff]
  intro e he
  simp [h e he]

theorem trace_filter_exit (dockerCli : Collaborators) (w : World) (opts : execOptions)
    (container : String) (execCmd : List String) :
    (trace dockerCli w opts container execCmd).filter Event.isGetExecExitCode =
      if attaches dockerCli w opts container execCmd = true ∧
          (pumpOf dockerCli w opts container execCmd).err = none
      then [.GetExecExitCode (execIDOf dockerCli w opts container execCmd)] else [] := by
  cases h : attaches dockerCli w opts container execCmd with
  | true =>
    rw [trace_attached dockerCli w opts container execCmd h]
    obtain ⟨hd, -⟩ := (attaches_iff dockerCli w opts container execCmd).1 h
    obtain ⟨f1, f2, f3, f4⟩ := sentConfig_fields w opts container execCmd hd
    simp only [List.filter_append, sessionEvents_filter_exit, pumpOf, f1, f2, f3, f4, if_true,
      true_and]
    have ht : (if opts.tty = true then some Stream.Out else some Stream.Err)
        = some (if opts.tty = true then Stream.Out else Stream.Err) := by
      cases opts.tty <;> rfl
    rw [ht]
    simp [List.filter_cons, Event.isGetExecExitCode]
  | false =>
    rw [filter_eq_nil_of_forall
      (fun e he => (trace_not_attached dockerCli w opts container execCmd h e he).2.2.1)]
    simp

theorem sessionEvents_filter_close (dockerCli : Collaborators) (cfg : ExecConfig) (id : String)
    (i o e : Option Stream) (resp : HijackedResponse) :
    (sessionEvents dockerCli cfg id i o e resp).filter Event.isClose = [] := by
  unfold sessionEvents
  cases (dockerCli.HoldHijackedConnection cfg.Tty i o e resp).err <;>
    cases (cfg.Tty && dockerCli.IsTerminalIn) <;>
    cases dockerCli.MonitorTtySize id true <;>
    simp [List.filter_cons, Event.isClose]

theorem main_of_not_status (e : GoError) (h : e.asStatusError = none) :
    main (some e) = { events := [.Fprintln .Err [.err e]], code := some 1 } := by
  cases e with
  | StatusError s => simp [GoError.asStatusError] at h
  | other text => rfl

theorem sessionEvents_filter_hold (dockerCli : Collaborators) (cfg : ExecConfig) (id : String)
    (i o e : Option Stream) (resp : HijackedResponse) :
    (sessionEvents dockerCli cfg id i o e resp).filter Event.isHoldHijackedConnection =
      [.HoldHijackedConnection cfg.Tty i o e resp] := by
  unfold sessionEvents
  cases (dockerCli.HoldHijackedConnection cfg.Tty i o e resp).err <;>
    cases (cfg.Tty && dockerCli.IsTerminalIn) <;>
    cases dockerCli.MonitorTtySize id true <;>
    simp [List.filter_cons, Event.isHoldHijackedConnection]

theorem sessionEvents_filter_monitor (dockerCli : Collaborators) (cfg : ExecConfig) (id : String)
    (i o e : Option Stream) (resp : HijackedResponse) :
    (sessionEvents dockerCli cfg id i o e resp).filter Event.isMonitorTtySize =
      if (cfg.Tty && dockerCli.IsTerminalIn) = true then [.MonitorTtySize id true] else [] := by
  unfold sessionEvents
  cases (dockerCli.HoldHijackedConnection cfg.Tty i o e resp).err <;>
    cases (cfg.Tty && dockerCli.IsTerminalIn) <;>
    cases dockerCli.MonitorTtySize id true <;>
    simp [List.filter_cons, Event.isMonitorTtySize]

theorem trace_filter_hold (dockerCli : Collaborators) (w : World) (opts : execOptions)
    (container : String) (execCmd : List String)
    (h : attaches dockerCli w opts container execCmd = true) :
    (trace dockerCli w opts container execCmd).filter Event.isHoldHijackedConnection =
      [.HoldHijackedConnection opts.tty (if opts.interactive then some .In else none)
        (some .Out) (some (if opts.tty then .Out else .Err))
        (respOf dockerCli w opts container execCmd)] := by
  rw [trace_attached dockerCli w opts container execCmd h]
  obtain ⟨hd, -⟩ := (attaches_iff dockerCli w opts container execCmd).1 h
  obtain ⟨f1, -⟩ := sentConfig_fields w opts container execCmd hd
  simp [List.filter_append, sessionEvents_filter_hold, List.filter_cons,
    Event.isHoldHijackedConnection, f1]

theorem runExec_events_split (dockerCli : Collaborators) (w : World) (opts : execOptions)
    (container : String) (execCmd : List String) :
    (runExec dockerCli w opts container execCmd).2.events =
      w.events ++ trace dockerCli w opts container execCmd := by
  cases h : attaches dockerCli w opts container execCmd with
  | true =>
    rw [trace_attached dockerCli w opts container execCmd h,
      runExec_attached dockerCli w opts container execCmd h]
  | false =>
    have hn : ¬ (attaches dockerCli w opts container execCmd = true) := by simp [h]
    rw [attaches_iff] at hn
    unfold trace
    rw [runExec_eq]
    by_cases hc : container = ""
    · simp [hc]
    · rw [if_neg hc]
      have hdet := sentConfig_Detach w opts container execCmd
      have hp := (create_not_attached dockerCli (sentWorld w opts container execCmd)
        (sentConfig w opts container execCmd) container (by
          intro hh
          apply hn
          unfold execIDOf
          rw [← hdet]
          exact ⟨hh.1, hc, hh.2⟩)).2.1
      obtain ⟨l, hl⟩ := hp
      have hw : (sentWorld w opts container execCmd).events = w.events := rfl
      rw [hw] at hl
      rw [← hl]
      simp

theorem sessionEvents_filter_notStderr (dockerCli : Collaborators) (cfg : ExecConfig)
    (id : String) (i o e : Option Stream) (resp : HijackedResponse) :
    (sessionEvents dockerCli cfg id i o e resp).filter Event.notStderr =
      [.HoldHijackedConnection cfg.Tty i o e resp] ++
      (if (cfg.Tty && dockerCli.IsTerminalIn) = true then [.MonitorTtySize id true] else []) ++
      [.recvErrCh] ++
      (match (dockerCli.HoldHijackedConnection cfg.Tty i o e resp).err with
       | some err => [.Debugf "Error hijack: %s" [.err err]]
       | none => [.GetExecExitCode id]) := by
  unfold sessionEvents
  cases (dockerCli.HoldHijackedConnection cfg.Tty i o e resp).err <;>
    cases (cfg.Tty && dockerCli.IsTerminalIn) <;>
    cases dockerCli.MonitorTtySize id true <;>
    simp [List.filter_cons, Event.notStderr, Event.writesTo]

theorem sessionEvents_stderr (dockerCli : Collaborators) (cfg : ExecConfig)
    (id : String) (i o e : Option Stream) (resp : HijackedResponse) :
    ∀ ev ∈ sessionEvents dockerCli cfg id i o e resp, ev.writesTo .Err = true →
      ∃ err, dockerCli.MonitorTtySize id true = some err ∧
        ev = .Fprintf .Err "监听TTY规格出错: %s\n" [.err err] := by
  unfold sessionEvents
  cases (dockerCli.HoldHijackedConnection cfg.Tty i o e resp).err <;>
    cases (cfg.Tty && dockerCli.IsTerminalIn) <;>
    cases hm : dockerCli.MonitorTtySize id true <;>
    simp [Event.writesTo]

theorem session_withMonitor (dockerCli : Collaborators)
    (m1 m2 : String → Bool → Option GoError) (w : World) (cfg : ExecConfig) (id : String)
    (i o e : Option Stream) (resp : HijackedResponse) :
    (runExec.session (withMonitor dockerCli m1) w cfg id i o e resp).1 =
      (runExec.session (withMonitor dockerCli m2) w cfg id i o e resp).1 ∧
    (runExec.session (withMonitor dockerCli m1) w cfg id i o e resp).2.DetachKeys =
      (runExec.session (withMonitor dockerCli m2) w cfg id i o e resp).2.DetachKeys ∧
    (runExec.session (withMonitor dockerCli m1) w cfg id i o e resp).2.events.filter
        Event.notStderr =
      (runExec.session (withMonitor dockerCli m2) w cfg id i o e resp).2.events.filter
        Event.notStderr := by
  refine ⟨?_, ?_, ?_⟩
  · rw [session_fst, session_fst]; rfl
  · rw [session_snd, session_snd]
  · rw [session_snd, session_snd]
    simp only [List.filter_append, sessionEvents_filter_notStderr]
    rfl

theorem create_withMonitor (dockerCli : Collaborators)
    (m1 m2 : String → Bool → Option GoError) (w : World) (cfg : ExecConfig)
    (container : String) :
    (runExec.create (withMonitor dockerCli m1) w cfg container).1 =
      (runExec.create (withMonitor dockerCli m2) w cfg container).1 ∧
    (runExec.create (withMonitor dockerCli m1) w cfg container).2.DetachKeys =
      (runExec.create (withMonitor dockerCli m2) w cfg container).2.DetachKeys ∧
    (runExec.create (withMonitor dockerCli m1) w cfg container).2.events.filter
        Event.notStderr =
      (runExec.create (withMonitor dockerCli m2) w cfg container).2.events.filter
        Event.notStderr := by
  unfold runExec.create
  simp only [withMonitor]
  rcases dockerCli.ContainerExecCreate container cfg with ⟨response, _ | cerr⟩
  · simp only []
    by_cases hid : response.ID = ""
    · simp [hid]
    · simp only [hid, if_false]
      cases cfg.Detach with
      | true =>
        simp only [Bool.not_true, Bool.false_eq_true, if_false]
        rcases hst : dockerCli.ContainerExecStart response.ID { Detach := true, Tty := cfg.Tty }
          with _ | serr <;> simp
      | false =>
        simp only [Bool.not_false, if_true]
        cases dockerCli.CheckTtyInput cfg.AttachStdin cfg.Tty with
        | some err => simp
        | none =>
          simp only []
          unfold runExec.interactive
          simp only []
          rcases hatt : dockerCli.ContainerExecAttach response.ID cfg with ⟨resp, _ | aerr⟩
          · simp only []
            have key := fun w2 => session_withMonitor dockerCli m1 m2 w2 cfg response.ID
              (if cfg.AttachStdin then some .In else none)
              (if cfg.AttachStdout then some .Out else none)
              (if cfg.AttachStderr then (if cfg.Tty then some .Out else some .Err) else none)
              resp
            simp only [withMonitor] at key
            refine ⟨(key _).1, ?_, ?_⟩
            · simpa [World.emit] using (key _).2.1
            · simp only [World.emit, List.filter_append]
              rw [(key _).2.2]
          · simp
  · simp

theorem runExec_withMonitor (dockerCli : Collaborators)
    (m1 m2 : String → Bool → Option GoError) (w : World) (opts : execOptions)
    (container : String) (execCmd : List String) :
    (runExec (withMonitor dockerCli m1) w opts container execCmd).1 =
      (runExec (withMonitor dockerCli m2) w opts container execCmd).1 ∧
    (runExec (withMonitor dockerCli m1) w opts container execCmd).2.DetachKeys =
      (runExec (withMonitor dockerCli m2) w opts container execCmd).2.DetachKeys ∧
    (trace (withMonitor dockerCli m1) w opts container execCmd).filter Event.notStderr =
      (trace (withMonitor dockerCli m2) w opts container execCmd).filter Event.notStderr := by
  have hp1 := runExec_events_split (withMonitor dockerCli m1) w opts container execCmd
  have hp2 := runExec_events_split (withMonitor dockerCli m2) w opts container execCmd
  have hev : (runExec (withMonitor dockerCli m1) w opts container execCmd).2.events.filter
        Event.notStderr =
      (runExec (withMonitor dockerCli m2) w opts container execCmd).2.events.filter
        Event.notStderr → (trace (withMonitor dockerCli m1) w opts container execCmd).filter
        Event.notStderr =
      (trace (withMonitor dockerCli m2) w opts container execCmd).filter Event.notStderr := by
    intro h
    rw [hp1, hp2, List.filter_append, List.filter_append] at h
    exact List.append_cancel_left h
  have key : (runExec (withMonitor dockerCli m1) w opts container execCmd).1 =
        (runExec (withMonitor dockerCli m2) w opts container execCmd).1 ∧
      (runExec (withMonitor dockerCli m1) w opts container execCmd).2.DetachKeys =
        (runExec (withMonitor dockerCli m2) w opts container execCmd).2.DetachKeys ∧
      (runExec (withMonitor dockerCli m1) w opts container execCmd).2.events.filter
          Event.notStderr =
        (runExec (withMonitor dockerCli m2) w opts container execCmd).2.events.filter
          Event.notStderr := by
    rw [runExec_eq, runExec_eq]
    by_cases hc : container = ""
    · simp [hc]
    · simp only [hc, if_false]
      exact create_withMonitor dockerCli m1 m2 (sentWorld w opts container execCmd)
        (sentConfig w opts container execCmd) container
  exact ⟨key.1, key.2.1, hev key.2.2⟩

theorem trace_stderr (dockerCli : Collaborators) (w : World) (opts : execOptions)
    (container : String) (execCmd : List String) :
    ∀ ev ∈ trace dockerCli w opts container execCmd, ev.writesTo .Err = true →
      ∃ err, dockerCli.MonitorTtySize (execIDOf dockerCli w opts container execCmd) true
          = some err ∧
        ev = .Fprintf .Err "监听TTY规格出错: %s\n" [.err err] := by
  intro ev hev hw
  cases h : attaches dockerCli w opts container execCmd with
  | true =>
    rw [trace_attached dockerCli w opts container execCmd h] at hev
    simp only [List.mem_append, List.mem_cons, List.mem_singleton, List.not_mem_nil,
      or_false] at hev
    rcases hev with (hev | hev) | hev
    · rcases hev with rfl | rfl | rfl <;> simp [Event.writesTo] at hw
    · exact sessionEvents_stderr _ _ _ _ _ _ _ ev hev hw
    · subst hev
      simp [Event.writesTo] at hw
  | false =>
    have := (trace_not_attached dockerCli w opts container execCmd h ev hev).2.2.2.2
    rw [this] at hw
    exact absurd hw (by decide)

theorem trace_filter_monitor (dockerCli : Collaborators) (w : World) (opts : execOptions)
    (container : String) (execCmd : List String) :
    (trace dockerCli w opts container execCmd).filter Event.isMonitorTtySize =
      if attaches dockerCli w opts container execCmd = true ∧ opts.tty = true ∧
          dockerCli.IsTerminalIn = true
      then [.MonitorTtySize (execIDOf dockerCli w opts container execCmd) true] else [] := by
  cases h : attaches dockerCli w opts container execCmd with
  | true =>
    rw [trace_attached dockerCli w opts container execCmd h]
    obtain ⟨hd, -⟩ := (attaches_iff dockerCli w opts container execCmd).1 h
    obtain ⟨f1, -⟩ := sentConfig_fields w opts container execCmd hd
    simp [List.filter_append, sessionEvents_filter_monitor, List.filter_cons,
      Event.isMonitorTtySize, f1]
  | false =>
    rw [filter_eq_nil_of_forall
      (fun e he => (trace_not_attached dockerCli w opts container execCmd h e he).2.1)]
    simp

theorem sessionEvents_filter_stderr (dockerCli : Collaborators) (cfg : ExecConfig)
    (id : String) (i o e : Option Stream) (resp : HijackedResponse) :
    (sessionEvents dockerCli cfg id i o e resp).filter (Event.writesTo .Err) =
      if (cfg.Tty && dockerCli.IsTerminalIn) = true then
        (match dockerCli.MonitorTtySize id true with
         | some err => [.Fprintf .Err "监听TTY规格出错: %s\n" [.err err]]
         | none => [])
      else [] := by
  unfold sessionEvents
  cases (dockerCli.HoldHijackedConnection cfg.Tty i o e resp).err <;>
    cases (cfg.Tty && dockerCli.IsTerminalIn) <;>
    cases dockerCli.MonitorTtySize id true <;>
    simp [List.filter_cons, Event.writesTo]

theorem trace_filter_stderr (dockerCli : Collaborators) (w : World) (opts : execOptions)
    (container : String) (execCmd : List String) :
    (trace dockerCli w opts container execCmd).filter (Event.writesTo .Err) =
      if attaches dockerCli w opts container execCmd = true ∧ opts.tty = true ∧
          dockerCli.IsTerminalIn = true
      then
        (match dockerCli.MonitorTtySize (execIDOf dockerCli w opts container execCmd) true with
         | some err => [.Fprintf .Err "监听TTY规格出错: %s\n" [.err err]]
         | none => [])
      else [] := by
  cases h : attaches dockerCli w opts container execCmd with
  | true =>
    rw [trace_attached dockerCli w opts container execCmd h]
    obtain ⟨hd, -⟩ := (attaches_iff dockerCli w opts container execCmd).1 h
    obtain ⟨f1, -⟩ := sentConfig_fields w opts container execCmd hd
    simp [List.filter_append, sessionEvents_filter_stderr, List.filter_cons,
      Event.writesTo, f1]
  | false =>
    rw [filter_eq_nil_of_forall
      (fun e he => (trace_not_attached dockerCli w opts container execCmd h e he).2.2.2.2)]
    simp

theorem attaches_detach (dockerCli : Collaborators) (w : World) (opts : execOptions)
    (container : String) (execCmd : List String) (hd : opts.detach = true) :
    attaches dockerCli w opts container execCmd = false := by
  unfold attaches
  simp [hd]

/-! ## The claims -/

/-- C1. In an attached run of `runExec` in which the pump returns no error and
`GetExecExitCode` returns the status `s` without error, `runExec` returns nil
when `s = 0`, and otherwise a `cli.StatusError` whose `StatusCode` is `s` and
whose `Status` is empty. -/
theorem runExec_returns_exit_status (dockerCli : Collaborators) (w : World) (opts : execOptions)
    (container : String) (execCmd : List String) (running : Bool) (s : Int)
    (hatt : attaches dockerCli w opts container execCmd = true)
    (hpump : (pumpOf dockerCli w opts container execCmd).err = none)
    (hexit : exitCodeOf dockerCli w opts container execCmd = (running, s, none)) :
    (runExec dockerCli w opts container execCmd).1 =
      if s = 0 then none else some (.StatusError { Status := "", StatusCode := s }) := by
  rw [runExec_fst_attached dockerCli w opts container execCmd hatt, hpump, hexit]
  by_cases hs : s = 0 <;> simp [hs]

theorem runExec_returns_exit_status_witness :
    attaches (sampleCli .StreamClosed (false, 3, none)) {} {} "c" ["sh"] = true ∧
    (pumpOf (sampleCli .StreamClosed (false, 3, none)) {} {} "c" ["sh"]).err = none ∧
    exitCodeOf (sampleCli .StreamClosed (false, 3, none)) {} {} "c" ["sh"] = (false, 3, none) ∧
    (runExec (sampleCli .StreamClosed (false, 3, none)) {} {} "c" ["sh"]).1 =
      if (3 : Int) = 0 then none else some (.StatusError { Status := "", StatusCode := 3 }) :=
  ⟨by decide, rfl, rfl,
    runExec_returns_exit_status (sampleCli .StreamClosed (false, 3, none)) {} {} "c" ["sh"]
      false 3 (by decide) rfl rfl⟩

/-- C2, as stated, fails: when the remote exit code fetched after a cleanly
ended stream is 256, `main` calls `os.Exit(256)` without writing anything, and
the client process exits with status 0, not 256. -/
theorem remote_status_256_exits_zero :
    attaches (sampleCli .StreamClosed (false, 256, none)) {} {} "c" ["sh"] = true ∧
    pumpOf (sampleCli .StreamClosed (false, 256, none)) {} {} "c" ["sh"] = .StreamClosed ∧
    exitCodeOf (sampleCli .StreamClosed (false, 256, none)) {} {} "c" ["sh"]
      = (false, 256, none) ∧
    main (runExec (sampleCli .StreamClosed (false, 256, none)) {} {} "c" ["sh"]).1 =
      { events := [], code := some 256 } ∧
    (main (runExec (sampleCli .StreamClosed (false, 256, none)) {} {} "c" ["sh"]).1).status
      = 0 := by
  refine ⟨by decide, rfl, rfl, ?_, ?_⟩ <;> decide

/-- C2, amended. When the exec stream ended cleanly (the pump completes with
`StreamClosed`) and the exit code `n` is fetched without error: for `n ≠ 0`
the error `runExec` returns makes `main` call `os.Exit(n)` without writing
anything, so that the client process exits with status `n mod 256`, which is
`n` itself whenever `0 < n < 256`; for `n = 0` `runExec` returns nil and `main`
returns without calling `os.Exit` and without writing anything, the process
ending with status 0. -/
theorem main_exits_with_remote_status (dockerCli : Collaborators) (w : World)
    (opts : execOptions) (container : String) (execCmd : List String) (running : Bool) (n : Int)
    (hatt : attaches dockerCli w opts container execCmd = true)
    (hpump : pumpOf dockerCli w opts container execCmd = .StreamClosed)
    (hexit : exitCodeOf dockerCli w opts container execCmd = (running, n, none)) :
    (n ≠ 0 →
      main (runExec dockerCli w opts container execCmd).1 = { events := [], code := some n } ∧
      (main (runExec dockerCli w opts container execCmd).1).status = n % 256) ∧
    (0 < n → n < 256 → (main (runExec dockerCli w opts container execCmd).1).status = n) ∧
    (n = 0 → (runExec dockerCli w opts container execCmd).1 = none ∧
      main (runExec dockerCli w opts container execCmd).1 = { events := [], code := none } ∧
      (main (runExec dockerCli w opts container execCmd).1).status = 0) := by
  rw [runExec_fst_attached dockerCli w opts container execCmd hatt, hpump, hexit]
  refine ⟨?_, ?_, ?_⟩
  · intro hn
    refine ⟨?_, ?_⟩
    · simp [hn, Completion.err, main, GoError.asStatusError]
    · simp [hn, Completion.err, main, GoError.asStatusError, Exit.status]
  · intro h0 h256
    have hn : n ≠ 0 := by omega
    simp only [hn, Completion.err, main, GoError.asStatusError, Exit.status, ne_eq,
      not_false_eq_true, if_true, not_true_eq_false, if_false]
    exact Int.emod_eq_of_lt (by omega) h256
  · intro hn
    simp [hn, Completion.err, main, Exit.status]

theorem main_exits_with_remote_status_witness :
    attaches (sampleCli .StreamClosed (false, 42, none)) {} {} "c" ["sh"] = true ∧
    pumpOf (sampleCli .StreamClosed (false, 42, none)) {} {} "c" ["sh"] = .StreamClosed ∧
    exitCodeOf (sampleCli .StreamClosed (false, 42, none)) {} {} "c" ["sh"] = (false, 42, none) ∧
    main (runExec (sampleCli .StreamClosed (false, 42, none)) {} {} "c" ["sh"]).1 =
      { events := [], code := some 42 } ∧
    (main (runExec (sampleCli .StreamClosed (false, 42, none)) {} {} "c" ["sh"]).1).status
      = 42 :=
  ⟨by decide, rfl, rfl,
    ((main_exits_with_remote_status (sampleCli .StreamClosed (false, 42, none)) {} {} "c" ["sh"]
      false 42 (by decide) rfl rfl).1 (by decide)).1,
    (main_exits_with_remote_status (sampleCli .StreamClosed (false, 42, none)) {} {} "c" ["sh"]
      false 42 (by decide) rfl rfl).2.1 (by decide) (by decide)⟩

/-- C3, as stated, fails: in a session that the pump ends with `Detached`
(reported without an error), `runExec` does call `GetExecExitCode`. -/
theorem detached_session_queries_exit_status :
    attaches (sampleCli .Detached (true, 0, none)) {} { interactive := true, tty := true }
      "c" ["sh"] = true ∧
    pumpOf (sampleCli .Detached (true, 0, none)) {} { interactive := true, tty := true }
      "c" ["sh"] = .Detached ∧
    Event.GetExecExitCode "e1" ∈
      trace (sampleCli .Detached (true, 0, none)) {} { interactive := true, tty := true }
        "c" ["sh"] := by
  refine ⟨by decide, rfl, ?_⟩
  decide

/-- C3, amended. `runExec` calls `GetExecExitCode` exactly once, for the exec
ID of the session, in every attached run whose pump returns no error, whatever
the completion reason (`StreamClosed` or `Detached`); it does not call it when
the pump returns an error, nor in a run that does not attach. -/
theorem exit_status_query_iff_no_pump_error (dockerCli : Collaborators) (w : World)
    (opts : execOptions) (container : String) (execCmd : List String) :
    (trace dockerCli w opts container execCmd).filter Event.isGetExecExitCode =
      if attaches dockerCli w opts container execCmd = true ∧
          (pumpOf dockerCli w opts container execCmd).err = none
      then [.GetExecExitCode (execIDOf dockerCli w opts container execCmd)] else [] :=
  trace_filter_exit dockerCli w opts container execCmd

/-- C4. If the pump returns an error `e`, `runExec` returns exactly `e` and
does not call `GetExecExitCode`; `main` then writes `e` once to stderr, and
nothing else, and calls `os.Exit(1)`, so that the process exits with the
non-zero status 1. The errors of the pump are errors of the transport, of the
framing and of the terminal, none of them a `cli.StatusError` (the only
`cli.StatusError` of the exec path is the one `runExec` builds itself from the
fetched exit status), which is what `e.asStatusError = none` says. -/
theorem pump_error_is_returned (dockerCli : Collaborators) (w : World) (opts : execOptions)
    (container : String) (execCmd : List String) (e : GoError)
    (hatt : attaches dockerCli w opts container execCmd = true)
    (hpump : (pumpOf dockerCli w opts container execCmd).err = some e) :
    (runExec dockerCli w opts container execCmd).1 = some e ∧
    (trace dockerCli w opts container execCmd).filter Event.isGetExecExitCode = [] ∧
    (e.asStatusError = none →
      main (runExec dockerCli w opts container execCmd).1 =
        { events := [.Fprintln .Err [.err e]], code := some 1 } ∧
      (main (runExec dockerCli w opts container execCmd).1).status = 1) := by
  have hret : (runExec dockerCli w opts container execCmd).1 = some e := by
    rw [runExec_fst_attached dockerCli w opts container execCmd hatt, hpump]
  refine ⟨hret, ?_, ?_⟩
  · rw [trace_filter_exit, hpump]
    simp
  · intro hne
    rw [hret, main_of_not_status e hne]
    exact ⟨rfl, rfl⟩

theorem pump_error_is_returned_witness :
    attaches (sampleCli (.Error (.other "connection reset")) (false, 0, none)) {} {}
      "c" ["sh"] = true ∧
    (pumpOf (sampleCli (.Error (.other "connection reset")) (false, 0, none)) {} {}
      "c" ["sh"]).err = some (.other "connection reset") ∧
    (runExec (sampleCli (.Error (.other "connection reset")) (false, 0, none)) {} {}
      "c" ["sh"]).1 = some (.other "connection reset") ∧
    (main (runExec (sampleCli (.Error (.other "connection reset")) (false, 0, none)) {} {}
      "c" ["sh"]).1 =
        { events := [.Fprintln .Err [.err (.other "connection reset")]], code := some 1 } ∧
      (main (runExec (sampleCli (.Error (.other "connection reset")) (false, 0, none)) {} {}
        "c" ["sh"]).1).status = 1) :=
  ⟨by decide, rfl,
    (pump_error_is_returned (sampleCli (.Error (.other "connection reset")) (false, 0, none))
      {} {} "c" ["sh"] (.other "connection reset") (by decide) rfl).1,
    (pump_error_is_returned (sampleCli (.Error (.other "connection reset")) (false, 0, none))
      {} {} "c" ["sh"] (.other "connection reset") (by decide) rfl).2.2 rfl⟩

/-- C5. In every run of `runExec` in which `ContainerExecAttach` succeeds, the
trace of the run ends with the `Close` of the hijacked connection and holds no
other `Close`, on every return path; in a run that does not reach a successful
attach there is no `Close`. -/
theorem close_exactly_once (dockerCli : Collaborators) (w : World) (opts : execOptions)
    (container : String) (execCmd : List String) :
    if attaches dockerCli w opts container execCmd = true then
      ∃ l, trace dockerCli w opts container execCmd =
          l ++ [.Close (respOf dockerCli w opts container execCmd)] ∧
        l.filter Event.isClose = []
    else (trace dockerCli w opts container execCmd).filter Event.isClose = [] := by
  cases h : attaches dockerCli w opts container execCmd with
  | true =>
    simp only [if_true]
    refine ⟨_, trace_attached dockerCli w opts container execCmd h, ?_⟩
    simp [List.filter_append, sessionEvents_filter_close, List.filter_cons, Event.isClose]
  | false =>
    simp only [Bool.false_eq_true, if_false]
    exact filter_eq_nil_of_forall
      (fun e he => (trace_not_attached dockerCli w opts container execCmd h e he).2.2.2.1)

/-- C6, as stated, fails: the code with which the client exits when
`GetExecExitCode` returns an error, 1, is also the code it surfaces for a
successfully determined remote exit status of 1. -/
theorem exit_status_error_code_not_reserved :
    (attaches (sampleCli .StreamClosed (false, 0, some (.other "inspect failed"))) {} {}
        "c" ["sh"] = true ∧
      exitCodeOf (sampleCli .StreamClosed (false, 0, some (.other "inspect failed"))) {} {}
        "c" ["sh"] = (false, 0, some (.other "inspect failed")) ∧
      (main (runExec (sampleCli .StreamClosed (false, 0, some (.other "inspect failed"))) {} {}
        "c" ["sh"]).1).code = some 1 ∧
      (main (runExec (sampleCli .StreamClosed (false, 0, some (.other "inspect failed"))) {} {}
        "c" ["sh"]).1).status = 1) ∧
    (attaches (sampleCli .StreamClosed (false, 1, none)) {} {} "c" ["sh"] = true ∧
      exitCodeOf (sampleCli .StreamClosed (false, 1, none)) {} {} "c" ["sh"] = (false, 1, none) ∧
      (main (runExec (sampleCli .StreamClosed (false, 1, none)) {} {} "c" ["sh"]).1).code
        = some 1 ∧
      (main (runExec (sampleCli .StreamClosed (false, 1, none)) {} {} "c" ["sh"]).1).status
        = 1) := by
  refine ⟨⟨by decide, rfl, ?_, ?_⟩, ⟨by decide, rfl, ?_, ?_⟩⟩ <;> decide

/-- C6, amended. If, after the pump returned without error, `GetExecExitCode`
returns an error `e`, `runExec` returns `e`; when `e` is not a
`cli.StatusError`, `main` writes it once to stderr and calls `os.Exit(1)`, and
the process exits with status 1. The status 1 is not reserved: among the runs
whose remote exit status `s` is determined, the client process exits with
status 1 exactly when `s` is congruent to 1 modulo 256, so for `s = 1` among
others. -/
theorem exit_status_error_exits_one (dockerCli : Collaborators) (w : World)
    (opts : execOptions) (container : String) (execCmd : List String) (running : Bool) (s : Int)
    (e : GoError)
    (hatt : attaches dockerCli w opts container execCmd = true)
    (hpump : (pumpOf dockerCli w opts container execCmd).err = none)
    (hexit : exitCodeOf dockerCli w opts container execCmd = (running, s, some e)) :
    (runExec dockerCli w opts container execCmd).1 = some e ∧
    (e.asStatusError = none →
      main (runExec dockerCli w opts container execCmd).1 =
        { events := [.Fprintln .Err [.err e]], code := some 1 } ∧
      (main (runExec dockerCli w opts container execCmd).1).status = 1) ∧
    (∀ (dockerCli2 : Collaborators) (w2 : World) (opts2 : execOptions) (container2 : String)
        (execCmd2 : List String) (running2 : Bool) (s2 : Int),
      attaches dockerCli2 w2 opts2 container2 execCmd2 = true →
      (pumpOf dockerCli2 w2 opts2 container2 execCmd2).err = none →
      exitCodeOf dockerCli2 w2 opts2 container2 execCmd2 = (running2, s2, none) →
      ((main (runExec dockerCli2 w2 opts2 container2 execCmd2).1).status = 1 ↔
        s2 % 256 = 1)) := by
  have hret : (runExec dockerCli w opts container execCmd).1 = some e := by
    rw [runExec_fst_attached dockerCli w opts container execCmd hatt, hpump, hexit]
  refine ⟨hret, ?_, ?_⟩
  · intro hne
    rw [hret, main_of_not_status e hne]
    exact ⟨rfl, rfl⟩
  · intro d2 w2 o2 c2 x2 r2 s2 ha hp he
    rw [runExec_fst_attached d2 w2 o2 c2 x2 ha, hp, he]
    by_cases hs : s2 = 0
    · simp [hs, main, Exit.status]
    · simp [hs, main, GoError.asStatusError, Exit.status]

theorem exit_status_error_exits_one_witness :
    attaches (sampleCli .StreamClosed (false, 0, some (.other "inspect failed"))) {} {}
      "c" ["sh"] = true ∧
    (runExec (sampleCli .StreamClosed (false, 0, some (.other "inspect failed"))) {} {}
      "c" ["sh"]).1 = some (.other "inspect failed") ∧
    (main (runExec (sampleCli .StreamClosed (false, 0, some (.other "inspect failed"))) {} {}
      "c" ["sh"]).1 =
        { events := [.Fprintln .Err [.err (.other "inspect failed")]], code := some 1 } ∧
      (main (runExec (sampleCli .StreamClosed (false, 0, some (.other "inspect failed"))) {} {}
        "c" ["sh"]).1).status = 1) :=
  ⟨by decide,
    (exit_status_error_exits_one
      (sampleCli .StreamClosed (false, 0, some (.other "inspect failed"))) {} {} "c" ["sh"]
      false 0 (.other "inspect failed") (by decide) rfl rfl).1,
    (exit_status_error_exits_one
      (sampleCli .StreamClosed (false, 0, some (.other "inspect failed"))) {} {} "c" ["sh"]
      false 0 (.other "inspect failed") (by decide) rfl rfl).2.1 rfl⟩

/-- C7. In an attached run, the pump is started once, and the sink `runExec`
hands it for the remote stdout is the client's stdout, the sink for the remote
stderr is the client's stdout when a tty is allocated and the client's stderr
when it is not; neither sink is nil. -/
theorem attach_output_sinks (dockerCli : Collaborators) (w : World) (opts : execOptions)
    (container : String) (execCmd : List String)
    (hatt : attaches dockerCli w opts container execCmd = true) :
    ∃ i resp, (trace dockerCli w opts container execCmd).filter Event.isHoldHijackedConnection =
      [.HoldHijackedConnection opts.tty i (some .Out)
        (some (if opts.tty then .Out else .Err)) resp] :=
  ⟨_, _, trace_filter_hold dockerCli w opts container execCmd hatt⟩

theorem attach_output_sinks_witness :
    attaches (sampleCli .StreamClosed (false, 0, none)) {} { tty := true } "c" ["sh"] = true ∧
    ∃ i resp, (trace (sampleCli .StreamClosed (false, 0, none)) {} { tty := true }
        "c" ["sh"]).filter Event.isHoldHijackedConnection =
      [.HoldHijackedConnection true i (some .Out) (some .Out) resp] :=
  ⟨by decide,
    attach_output_sinks (sampleCli .StreamClosed (false, 0, none)) {} { tty := true } "c" ["sh"]
      (by decide)⟩

/-- C8. In an attached run, the input `runExec` hands to the pump is the
client's stdin when the interactive option is set, and nil when it is not. -/
theorem attach_input_source (dockerCli : Collaborators) (w : World) (opts : execOptions)
    (container : String) (execCmd : List String)
    (hatt : attaches dockerCli w opts container execCmd = true) :
    ∃ o e resp, (trace dockerCli w opts container execCmd).filter Event.isHoldHijackedConnection =
      [.HoldHijackedConnection opts.tty (if opts.interactive then some .In else none) o e resp] :=
  ⟨_, _, _, trace_filter_hold dockerCli w opts container execCmd hatt⟩

theorem attach_input_source_witness :
    attaches (sampleCli .StreamClosed (false, 0, none)) {} { interactive := true }
      "c" ["sh"] = true ∧
    ∃ o e resp, (trace (sampleCli .StreamClosed (false, 0, none)) {} { interactive := true }
        "c" ["sh"]).filter Event.isHoldHijackedConnection =
      [.HoldHijackedConnection false (some .In) o e resp] :=
  ⟨by decide,
    attach_input_source (sampleCli .StreamClosed (false, 0, none)) {} { interactive := true }
      "c" ["sh"] (by decide)⟩

/-- C9. `runExec` calls `MonitorTtySize`, for the exec ID of the session and
with the exec flag set, once in an attached run in which a tty was requested
and the client's input is a terminal, and not at all in any other run; in
detach mode it is never called. -/
theorem monitor_started_iff_tty_terminal (dockerCli : Collaborators) (w : World)
    (opts : execOptions) (container : String) (execCmd : List String) :
    ((trace dockerCli w opts container execCmd).filter Event.isMonitorTtySize =
      if attaches dockerCli w opts container execCmd = true ∧ opts.tty = true ∧
          dockerCli.IsTerminalIn = true
      then [.MonitorTtySize (execIDOf dockerCli w opts container execCmd) true] else []) ∧
    (opts.detach = true →
      (trace dockerCli w opts container execCmd).filter Event.isMonitorTtySize = []) := by
  refine ⟨trace_filter_monitor dockerCli w opts container execCmd, ?_⟩
  intro hd
  rw [trace_filter_monitor, attaches_detach dockerCli w opts container execCmd hd]
  simp

/-- C10. A failure of `MonitorTtySize` does not change the outcome: for any
two behaviours of `MonitorTtySize`, all other collaborators being the same,
`runExec` returns the same value, leaves the same configuration, and makes
the same calls in the same order (the wait for the pump and the exit-status
query among them); the traces differ only in writes to the client's stderr,
and every such write is the report of the error `MonitorTtySize` returned.
The failure is written: the writes of a run to the client's stderr are exactly
the one report `Fprintf` of the error when the monitor is started (attached
run, tty requested, input a terminal) and returns an error, and none in any
other run. -/
theorem monitor_failure_harmless (dockerCli : Collaborators)
    (m1 m2 : String → Bool → Option GoError) (w : World) (opts : execOptions)
    (container : String) (execCmd : List String) :
    (runExec (withMonitor dockerCli m1) w opts container execCmd).1 =
      (runExec (withMonitor dockerCli m2) w opts container execCmd).1 ∧
    (runExec (withMonitor dockerCli m1) w opts container execCmd).2.DetachKeys =
      (runExec (withMonitor dockerCli m2) w opts container execCmd).2.DetachKeys ∧
    (trace (withMonitor dockerCli m1) w opts container execCmd).filter Event.notStderr =
      (trace (withMonitor dockerCli m2) w opts container execCmd).filter Event.notStderr ∧
    (∀ ev ∈ trace (withMonitor dockerCli m1) w opts container execCmd,
      ev.writesTo .Err = true →
      ∃ err, m1 (execIDOf dockerCli w opts container execCmd) true = some err ∧
        ev = .Fprintf .Err "监听TTY规格出错: %s\n" [.err err]) ∧
    (attaches dockerCli w opts container execCmd = true →
      Event.recvErrCh ∈ trace (withMonitor dockerCli m1) w opts container execCmd ∧
      ((pumpOf dockerCli w opts container execCmd).err = none →
        Event.GetExecExitCode (execIDOf dockerCli w opts container execCmd) ∈
          trace (withMonitor dockerCli m1) w opts container execCmd)) ∧
    (trace (withMonitor dockerCli m1) w opts container execCmd).filter (Event.writesTo .Err) =
      (if attaches dockerCli w opts container execCmd = true ∧ opts.tty = true ∧
          dockerCli.IsTerminalIn = true
      then
        (match m1 (execIDOf dockerCli w opts container execCmd) true with
         | some err => [.Fprintf .Err "监听TTY规格出错: %s\n" [.err err]]
         | none => [])
      else []) ∧
    (∀ err, attaches dockerCli w opts container execCmd = true → opts.tty = true →
      dockerCli.IsTerminalIn = true →
      m1 (execIDOf dockerCli w opts container execCmd) true = some err →
      (trace (withMonitor dockerCli m1) w opts container execCmd).filter (Event.writesTo .Err) =
        [.Fprintf .Err "监听TTY规格出错: %s\n" [.err err]]) := by
  obtain ⟨h1, h2, h3⟩ := runExec_withMonitor dockerCli m1 m2 w opts container execCmd
  have h6 := trace_filter_stderr (withMonitor dockerCli m1) w opts container execCmd
  refine ⟨h1, h2, h3, ?_, ?_, h6, ?_⟩
  · exact trace_stderr (withMonitor dockerCli m1) w opts container execCmd
  · intro hatt
    have hatt2 : attaches (withMonitor dockerCli m1) w opts container execCmd = true := hatt
    constructor
    · rw [trace_attached _ w opts container execCmd hatt2]
      simp [sessionEvents]
    · intro hp
      have hf := trace_filter_exit (withMonitor dockerCli m1) w opts container execCmd
      have hp2 : (pumpOf (withMonitor dockerCli m1) w opts container execCmd).err = none := hp
      rw [if_pos ⟨hatt2, hp2⟩] at hf
      have : Event.GetExecExitCode (execIDOf (withMonitor dockerCli m1) w opts container execCmd)
          ∈ (trace (withMonitor dockerCli m1) w opts container execCmd).filter
            Event.isGetExecExitCode := by
        rw [hf]; simp
      exact (List.mem_filter.1 this).1
  · intro err hatt htty hterm hm
    have hatt2 : attaches (withMonitor dockerCli m1) w opts container execCmd = true := hatt
    have hterm2 : (withMonitor dockerCli m1).IsTerminalIn = true := hterm
    have hm2 : (withMonitor dockerCli m1).MonitorTtySize
        (execIDOf (withMonitor dockerCli m1) w opts container execCmd) true = some err := hm
    rw [h6, if_pos ⟨hatt2, htty, hterm2⟩, hm2]

/-- On the sample client with a terminal and a tty requested, a failing
`MonitorTtySize` is reported once on stderr and the run still returns the
remote exit status. -/
theorem monitor_failure_sample :
    (trace (withMonitor (sampleCli .StreamClosed (false, 3, none))
        (fun _ _ => some (.other "resize failed"))) {} { tty := true, interactive := true }
        "c" ["sh"]).filter (Event.writesTo .Err) =
      [.Fprintf .Err "监听TTY规格出错: %s\n" [.err (.other "resize failed")]] ∧
    (runExec (withMonitor (sampleCli .StreamClosed (false, 3, none))
        (fun _ _ => some (.other "resize failed"))) {} { tty := true, interactive := true }
        "c" ["sh"]).1 = some (.StatusError { StatusCode := 3 }) := by
  constructor <;> decide

/-! ## Helper lemmas: detached exec and the creation request -/

theorem sentConfig_Tty (w : World) (opts : execOptions) (container : String)
    (execCmd : List String) : (sentConfig w opts container execCmd).Tty = opts.tty := by
  unfold sentConfig parseExec
  cases opts.detach <;> cases opts.interactive <;> rfl

theorem sentConfig_DetachKeys (w : World) (opts : execOptions) (container : String)
    (execCmd : List String) :
    (sentConfig w opts container execCmd).DetachKeys =
      if opts.detachKeys ≠ "" then opts.detachKeys else w.DetachKeys := rfl

theorem create_detached (dockerCli : Collaborators) (w : World) (cfg : ExecConfig)
    (container : String)
    (hd : cfg.Detach = true)
    (hcr : (dockerCli.ContainerExecCreate container cfg).2 = none)
    (hid : (dockerCli.ContainerExecCreate container cfg).1.ID ≠ "") :
    runExec.create dockerCli w cfg container =
      (dockerCli.ContainerExecStart (dockerCli.ContainerExecCreate container cfg).1.ID
          { Detach := true, Tty := cfg.Tty },
       { events := w.events ++
          [.ContainerExecCreate container cfg,
           .ContainerExecStart (dockerCli.ContainerExecCreate container cfg).1.ID
             { Detach := true, Tty := cfg.Tty }]
         DetachKeys := w.DetachKeys }) := by
  unfold runExec.create
  rcases hcreate : dockerCli.ContainerExecCreate container cfg with ⟨response, cerr⟩
  rw [hcreate] at hcr hid
  simp only [] at hcr hid
  subst hcr
  simp only [hid, if_false, hd, Bool.not_true, Bool.false_eq_true, World.emit]
  rcases hst : dockerCli.ContainerExecStart response.ID { Detach := true, Tty := cfg.Tty }
    with _ | serr <;> simp

theorem create_DetachKeys (dockerCli : Collaborators) (w : World) (cfg : ExecConfig)
    (container : String) :
    (runExec.create dockerCli w cfg container).2.DetachKeys = w.DetachKeys := by
  by_cases h : cfg.Detach = false ∧ (dockerCli.ContainerExecCreate container cfg).2 = none ∧
      (dockerCli.ContainerExecCreate container cfg).1.ID ≠ "" ∧
      dockerCli.CheckTtyInput cfg.AttachStdin cfg.Tty = none ∧
      (dockerCli.ContainerExecAttach (dockerCli.ContainerExecCreate container cfg).1.ID cfg).2
        = none
  · obtain ⟨hd, hcr, hid, hchk, hatt⟩ := h
    rw [create_attached dockerCli w cfg container
      (dockerCli.ContainerExecAttach (dockerCli.ContainerExecCreate container cfg).1.ID cfg).1
      hd hcr hid hchk (Prod.ext rfl hatt)]
  · exact (create_not_attached dockerCli w cfg container h).1

theorem create_head (dockerCli : Collaborators) (w : World) (cfg : ExecConfig)
    (container : String) :
    ∃ l, (runExec.create dockerCli w cfg container).2.events =
        w.events ++ .ContainerExecCreate container cfg :: l ∧
      l.filter Event.isContainerExecCreate = [] := by
  unfold runExec.create
  rcases dockerCli.ContainerExecCreate container cfg with ⟨response, _ | cerr⟩
  · simp only []
    by_cases hid : response.ID = ""
    · exact ⟨[.Fprintf .Out "执行ID为空" []], by simp [hid, World.emit], by
        simp [Event.isContainerExecCreate]⟩
    · simp only [hid, if_false]
      cases hd : cfg.Detach with
      | true =>
        simp only [Bool.not_true, Bool.false_eq_true, if_false]
        refine ⟨[.ContainerExecStart response.ID { Detach := true, Tty := cfg.Tty }], ?_, by
          simp [Event.isContainerExecCreate]⟩
        rcases hst : dockerCli.ContainerExecStart response.ID { Detach := true, Tty := cfg.Tty }
          with _ | serr <;> simp [World.emit]
      | false =>
        simp only [Bool.not_false, if_true]
        cases hchk : dockerCli.CheckTtyInput cfg.AttachStdin cfg.Tty with
        | some e =>
          exact ⟨[.CheckTtyInput cfg.AttachStdin cfg.Tty], by simp [World.emit], by
            simp [Event.isContainerExecCreate]⟩
        | none =>
          unfold runExec.interactive
          rcases hatt : dockerCli.ContainerExecAttach response.ID cfg with ⟨resp, _ | aerr⟩
          · simp only [session_snd, World.emit]
            refine ⟨_, by simp only [List.append_assoc, List.singleton_append]; rfl, ?_⟩
            unfold sessionEvents
            cases (dockerCli.HoldHijackedConnection cfg.Tty
                (if cfg.AttachStdin = true then some Stream.In else none)
                (if cfg.AttachStdout = true then some Stream.Out else none)
                (if cfg.AttachStderr = true then
                  if cfg.Tty = true then some Stream.Out else some Stream.Err else none)
                resp).err <;>
              cases (cfg.Tty && dockerCli.IsTerminalIn) <;>
              cases dockerCli.MonitorTtySize response.ID true <;>
              simp [List.filter_cons, Event.isContainerExecCreate]
          · exact ⟨[.CheckTtyInput cfg.AttachStdin cfg.Tty,
              .ContainerExecAttach response.ID cfg], by simp [World.emit], by
              simp [Event.isContainerExecCreate]⟩
  · exact ⟨[], by simp [World.emit], by simp⟩

/-! ## The claims, continued: detached exec, `parseExec`, detach keys -/

/-- C11. With the detach option set and a non-empty exec ID (the creation of
the session succeeded), the run of `runExec` consists of the creation request
and of exactly one `ContainerExecStart` request, which carries `Detach = true`
and `Tty` = the tty option; `runExec` returns that request's error. No
`CheckTtyInput`, `ContainerExecAttach`, `HoldHijackedConnection`,
`MonitorTtySize` or `GetExecExitCode` is in the trace. -/
theorem detached_exec_starts_once (dockerCli : Collaborators) (w : World) (opts : execOptions)
    (container : String) (execCmd : List String)
    (hd : opts.detach = true)
    (hc : created dockerCli w opts container execCmd = true) :
    trace dockerCli w opts container execCmd =
      [.ContainerExecCreate container (sentConfig w opts container execCmd),
       .ContainerExecStart (execIDOf dockerCli w opts container execCmd)
         { Detach := true, Tty := opts.tty }] ∧
    (runExec dockerCli w opts container execCmd).1 =
      dockerCli.ContainerExecStart (execIDOf dockerCli w opts container execCmd)
        { Detach := true, Tty := opts.tty } := by
  unfold created at hc
  simp only [Bool.and_eq_true, decide_eq_true_eq, Option.isNone_iff_eq_none] at hc
  obtain ⟨⟨hne, hcr⟩, hid⟩ := hc
  have hdet := sentConfig_Detach w opts container execCmd
  rw [hd] at hdet
  have htty := sentConfig_Tty w opts container execCmd
  unfold trace
  rw [runExec_eq, if_neg hne, create_detached dockerCli _ _ container hdet hcr hid, htty]
  constructor
  · simp [sentWorld, execIDOf]
  · rfl

theorem detached_exec_starts_once_witness :
    created (sampleCli .StreamClosed (false, 0, none)) {} { detach := true, tty := true }
      "c" ["sh"] = true ∧
    trace (sampleCli .StreamClosed (false, 0, none)) {} { detach := true, tty := true }
      "c" ["sh"] =
      [.ContainerExecCreate "c"
        (sentConfig {} { detach := true, tty := true } "c" ["sh"]),
       .ContainerExecStart "e1" { Detach := true, Tty := true }] ∧
    (runExec (sampleCli .StreamClosed (false, 0, none)) {} { detach := true, tty := true }
      "c" ["sh"]).1 = none :=
  ⟨by decide,
    (detached_exec_starts_once (sampleCli .StreamClosed (false, 0, none)) {}
      { detach := true, tty := true } "c" ["sh"] rfl (by decide)).1,
    (detached_exec_starts_once (sampleCli .StreamClosed (false, 0, none)) {}
      { detach := true, tty := true } "c" ["sh"] rfl (by decide)).2⟩

/-- C12. `parseExec` never returns an error, and the configuration it returns
has `AttachStdout = AttachStderr = !detach`, `AttachStdin = (!detach &&
interactive)`, `Detach = detach`, `Tty = tty`, `User = user`, `Privileged =
privileged` and `Cmd` = the given command. -/
theorem parseExec_config (opts : execOptions) (container : String) (execCmd : List String) :
    (parseExec opts container execCmd).2 = none ∧
    (parseExec opts container execCmd).1.AttachStdout = !opts.detach ∧
    (parseExec opts container execCmd).1.AttachStderr = !opts.detach ∧
    (parseExec opts container execCmd).1.AttachStdin = (!opts.detach && opts.interactive) ∧
    (parseExec opts container execCmd).1.Detach = opts.detach ∧
    (parseExec opts container execCmd).1.Tty = opts.tty ∧
    (parseExec opts container execCmd).1.User = opts.user ∧
    (parseExec opts container execCmd).1.Privileged = opts.privileged ∧
    (parseExec opts container execCmd).1.Cmd = execCmd := by
  unfold parseExec
  cases opts.detach <;> cases opts.interactive <;> simp

/-- C13. When `runExec` sends the creation request (the container name is not
empty), it sends exactly one, first in the run, and the `DetachKeys` it
carries are the `--detach-keys` option when that is not empty, and the
`DetachKeys` of the client's configuration otherwise. -/
theorem creation_request_detach_keys (dockerCli : Collaborators) (w : World)
    (opts : execOptions) (container : String) (execCmd : List String)
    (hc : container ≠ "") :
    ∃ cfg l, trace dockerCli w opts container execCmd = .ContainerExecCreate container cfg :: l ∧
      l.filter Event.isContainerExecCreate = [] ∧
      cfg.DetachKeys = if opts.detachKeys ≠ "" then opts.detachKeys else w.DetachKeys := by
  obtain ⟨l, hl, hf⟩ := create_head dockerCli (sentWorld w opts container execCmd)
    (sentConfig w opts container execCmd) container
  refine ⟨sentConfig w opts container execCmd, l, ?_, hf, rfl⟩
  unfold trace
  rw [runExec_eq, if_neg hc, hl]
  simp [sentWorld]

theorem creation_request_detach_keys_witness :
    "c" ≠ "" ∧
    ∃ cfg l, trace (sampleCli .StreamClosed (false, 0, none)) { DetachKeys := "ctrl-p,ctrl-q" }
        { detachKeys := "ctrl-x" } "c" ["sh"] = .ContainerExecCreate "c" cfg :: l ∧
      l.filter Event.isContainerExecCreate = [] ∧
      cfg.DetachKeys =
        if ("ctrl-x" : String) ≠ "" then "ctrl-x" else "ctrl-p,ctrl-q" :=
  ⟨by decide,
    creation_request_detach_keys (sampleCli .StreamClosed (false, 0, none))
      { DetachKeys := "ctrl-p,ctrl-q" } { detachKeys := "ctrl-x" } "c" ["sh"] (by decide)⟩

/-- C14, as stated, fails: with `--detach-keys ctrl-x` and a configuration
whose `DetachKeys` are "ctrl-p,ctrl-q", the configuration holds "ctrl-x" after
`runExec` returns, and a later run without the option sends "ctrl-x". -/
theorem detach_keys_override_survives :
    (runExec (sampleCli .StreamClosed (false, 0, none)) { DetachKeys := "ctrl-p,ctrl-q" }
      { detachKeys := "ctrl-x" } "c" ["sh"]).2.DetachKeys = "ctrl-x" ∧
    (sentConfig
      (runExec (sampleCli .StreamClosed (false, 0, none)) { DetachKeys := "ctrl-p,ctrl-q" }
        { detachKeys := "ctrl-x" } "c" ["sh"]).2
      {} "c" ["sh"]).DetachKeys = "ctrl-x" := by
  constructor <;> decide

/-- C14, amended. `runExec` leaves the `DetachKeys` of the client's
configuration unchanged when the `--detach-keys` option is empty (or the
container name is empty); when the option is not empty, the configuration
holds the option's value after `runExec` returns. -/
theorem detach_keys_after_run (dockerCli : Collaborators) (w : World) (opts : execOptions)
    (container : String) (execCmd : List String) :
    (runExec dockerCli w opts container execCmd).2.DetachKeys =
      if container ≠ "" ∧ opts.detachKeys ≠ "" then opts.detachKeys else w.DetachKeys := by
  rw [runExec_eq]
  by_cases hc : container = ""
  · simp [hc]
  · rw [if_neg hc, create_DetachKeys]
    by_cases hk : opts.detachKeys = "" <;> simp [hc, hk, sentWorld, sentConfig]

/-! ## The frame format -/

theorem StreamType.ofCode_code (t : StreamType) : StreamType.ofCode t.code = some t := by
  cases t <;> decide

theorem bigEndian_length (n : Nat) (h : n < 2 ^ 32) :
    (Fin.ofNat (n / 2 ^ 24) : Byte).val * 2 ^ 24 + (Fin.ofNat (n / 2 ^ 16) : Byte).val * 2 ^ 16 +
      (Fin.ofNat (n / 2 ^ 8) : Byte).val * 2 ^ 8 + (Fin.ofNat n : Byte).val = n := by
  simp only [Fin.ofNat, Nat.reducePow] at *
  omega

/-- C15. Frame round-trip: for every stream type and every payload whose
length does not exceed the codec's maximum, decoding the encoded frame gives
back the stream type and the payload, with nothing left over; and when other
bytes follow the frame, they are what is left. -/
theorem frame_round_trip (c : StreamFrameCodec) (t : StreamType) (payload : List Byte)
    (h : payload.length ≤ c.maxLength) :
    c.decode (StreamFrameCodec.encode t payload) = .ok (some (t, payload, [])) ∧
    ∀ rest, c.decode (StreamFrameCodec.encode t payload ++ rest) =
      .ok (some (t, payload, rest)) := by
  have hlen : payload.length < 2 ^ 32 := lt_of_le_of_lt h c.fits
  have key : ∀ rest, c.decode (StreamFrameCodec.encode t payload ++ rest) =
      .ok (some (t, payload, rest)) := by
    intro rest
    simp only [StreamFrameCodec.encode, StreamFrameCodec.decode, List.cons_append,
      List.nil_append, StreamType.ofCode_code, bigEndian_length payload.length hlen]
    rw [if_neg (by omega), if_neg (by simp)]
    simp
  refine ⟨?_, key⟩
  have := key []
  simpa using this

theorem frame_round_trip_witness :
    ([104, 105] : List Byte).length ≤ StreamFrameCodec.oneMiB.maxLength ∧
    StreamFrameCodec.oneMiB.decode (StreamFrameCodec.encode .stderr [104, 105]) =
      .ok (some (.stderr, [104, 105], [])) :=
  ⟨by decide, (frame_round_trip StreamFrameCodec.oneMiB .stderr [104, 105] (by decide)).1⟩

/-! ## The detachable reader -/

namespace DetachableReader

end DetachableReader

namespace DetachableReader

end DetachableReader

theorem system.range_constraint_hit (dockerCli : system.Client) (ref : String)
    (d : system.inspectData) (rest : List system.inspectData) (ht : d.ObjectType ≠ "")
    (hr : ∀ e ∈ (d.ObjectInspector ref).2, e.isRequest = true) :
    (system.inspectAll.range dockerCli d.ObjectType ref (d :: rest)).1 =
      (d.ObjectInspector ref).1 ∧
    (system.inspectAll.range dockerCli d.ObjectType ref (d :: rest)).2.filter
      system.Event.isRequest = (d.ObjectInspector ref).2 := by
  have hf : (d.ObjectInspector ref).2.filter system.Event.isRequest = (d.ObjectInspector ref).2 :=
    List.filter_eq_self.2 hr
  have hw : ∀ w f a, system.Event.isRequest (.Fprintf w f a) = false := fun _ _ _ => rfl
  rcases hres : d.ObjectInspector ref with ⟨⟨v, raw, _ | err⟩, events⟩
  · rw [hres] at hf
    simp only [] at hf
    cases hs : d.IsSizeSupported <;>
      simp [system.inspectAll.range, ht, hres, hs, List.filter_cons, hw, hf]
  · rw [hres] at hf
    simp only [] at hf
    simp [system.inspectAll.range, ht, hres, hf]

/-- C17. For every type constraint among container, image, network, volume,
service, task and node, and every reference, the lookup `inspectAll` builds
makes the one request of the inspector of that type of the table, and no
other request, and returns that inspector's value, raw bytes and error. -/
theorem inspect_with_type_constraint (dockerCli : system.Client) (getSize : Bool)
    (ref : String) :
    ∀ t ∈ ["container", "image", "network", "volume", "service", "task", "node"],
      ∃ d ∈ system.inspectAutodetect dockerCli getSize, d.ObjectType = t ∧
        (system.inspectAll dockerCli getSize t ref).1 = (d.ObjectInspector ref).1 ∧
        (system.inspectAll dockerCli getSize t ref).2.filter system.Event.isRequest =
          (d.ObjectInspector ref).2 ∧
        ∃ e, (d.ObjectInspector ref).2 = [e] ∧ e.isRequest = true := by
  intro t ht
  simp only [List.mem_cons, List.mem_singleton, List.not_mem_nil, or_false] at ht
  unfold system.inspectAll system.inspectAutodetect
  rcases ht with rfl | rfl | rfl | rfl | rfl | rfl | rfl
  · have h := system.range_constraint_hit dockerCli ref
      ⟨"container", true, system.inspectContainers dockerCli getSize⟩
      (system.inspectAutodetect dockerCli getSize).tail (by simp)
      (by simp [system.inspectContainers, system.Event.isRequest])
    exact ⟨_, by simp, rfl, h.1, h.2, _, rfl, rfl⟩
  · refine ⟨⟨"image", true, system.inspectImages dockerCli⟩, by simp, rfl, ?_, ?_, _, rfl, rfl⟩ <;>
      rcases hres : dockerCli.ImageInspectWithRaw ref with ⟨v, raw, _ | err⟩ <;>
      simp [system.inspectAll.range, system.inspectImages, hres, system.Event.isRequest,
        List.filter_cons]
  · refine ⟨⟨"network", false, system.inspectNetwork dockerCli⟩, by simp, rfl, ?_, ?_, _, rfl,
      rfl⟩ <;>
      rcases hres : dockerCli.NetworkInspectWithRaw ref with ⟨v, raw, _ | err⟩ <;>
      simp [system.inspectAll.range, system.inspectNetwork, hres, system.Event.isRequest,
        List.filter_cons]
  · refine ⟨⟨"volume", false, system.inspectVolume dockerCli⟩, by simp, rfl, ?_, ?_, _, rfl,
      rfl⟩ <;>
      rcases hres : dockerCli.VolumeInspectWithRaw ref with ⟨v, raw, _ | err⟩ <;>
      simp [system.inspectAll.range, system.inspectVolume, hres, system.Event.isRequest,
        List.filter_cons]
  · refine ⟨⟨"service", false, system.inspectService dockerCli⟩, by simp, rfl, ?_, ?_, _, rfl,
      rfl⟩ <;>
      rcases hres : dockerCli.ServiceInspectWithRaw ref with ⟨v, raw, _ | err⟩ <;>
      simp [system.inspectAll.range, system.inspectService, hres, system.Event.isRequest,
        List.filter_cons]
  · refine ⟨⟨"task", false, system.inspectTasks dockerCli⟩, by simp, rfl, ?_, ?_, _, rfl,
      rfl⟩ <;>
      rcases hres : dockerCli.TaskInspectWithRaw ref with ⟨v, raw, _ | err⟩ <;>
      simp [system.inspectAll.range, system.inspectTasks, hres, system.Event.isRequest,
        List.filter_cons]
  · refine ⟨⟨"node", false, system.inspectNode dockerCli⟩, by simp, rfl, ?_, ?_, _, rfl,
      rfl⟩ <;>
      rcases hres : dockerCli.NodeInspectWithRaw ref with ⟨v, raw, _ | err⟩ <;>
      simp [system.inspectAll.range, system.inspectNode, hres, system.Event.isRequest,
        List.filter_cons]

theorem inspect_with_type_constraint_witness :
    "service" ∈ ["container", "image", "network", "volume", "service", "task", "node"] ∧
    ∃ d ∈ system.inspectAutodetect system.sampleClient false, d.ObjectType = "service" ∧
      (system.inspectAll system.sampleClient false "service" "web").1 =
        (d.ObjectInspector "web").1 ∧
      (system.inspectAll system.sampleClient false "service" "web").2.filter
        system.Event.isRequest = (d.ObjectInspector "web").2 ∧
      ∃ e, (d.ObjectInspector "web").2 = [e] ∧ e.isRequest = true :=
  ⟨by decide,
    inspect_with_type_constraint system.sampleClient false "web" "service" (by decide)⟩

theorem system.firstFound_first (dockerCli : system.Client) (ref : String)
    (pre : List (system.Inspected × List system.Event)) (r : system.Inspected × List system.Event)
    (post : List (system.Inspected × List system.Event))
    (hpre : ∀ x ∈ pre, system.skipped dockerCli x.1 = true)
    (hr : system.skipped dockerCli r.1 = false) :
    system.firstFound dockerCli ref (pre ++ r :: post) =
      (r.1, ((pre ++ [r]).map (fun x => x.2)).flatten) := by
  induction pre with
  | nil => simp [system.firstFound, hr]
  | cons x xs ih =>
    have hx := hpre x (List.mem_cons_self _ _)
    have ih2 := ih (fun y hy => hpre y (List.mem_cons_of_mem _ hy))
    simp [system.firstFound, hx, ih2]

theorem system.firstFound_none (dockerCli : system.Client) (ref : String)
    (rs : List (system.Inspected × List system.Event))
    (h : ∀ x ∈ rs, system.skipped dockerCli x.1 = true) :
    system.firstFound dockerCli ref rs =
      ((none, none, some (.other ("错误: 没有该项目: " ++ ref))),
        (rs.map (fun x => x.2)).flatten) := by
  induction rs with
  | nil => simp [system.firstFound]
  | cons x xs ih =>
    have hx := h x (List.mem_cons_self _ _)
    have ih2 := ih (fun y hy => h y (List.mem_cons_of_mem _ hy))
    simp [system.firstFound, hx, ih2]

theorem system.range_eq_firstFound (dockerCli : system.Client) (ref : String)
    (rows : List system.inspectData) :
    (system.inspectAll.range dockerCli "" ref rows).1 =
      (system.firstFound dockerCli ref (rows.map (fun d => d.ObjectInspector ref))).1 ∧
    (system.inspectAll.range dockerCli "" ref rows).2.filter system.Event.isRequest =
      (system.firstFound dockerCli ref
        (rows.map (fun d => d.ObjectInspector ref))).2.filter system.Event.isRequest := by
  induction rows with
  | nil => simp [system.inspectAll.range, system.firstFound]
  | cons d rest ih =>
    have hw : ∀ w f a, system.Event.isRequest (.Fprintf w f a) = false := fun _ _ _ => rfl
    rcases hres : d.ObjectInspector ref with ⟨⟨v, raw, _ | err⟩, events⟩
    · cases hs : d.IsSizeSupported <;>
        simp [system.inspectAll.range, system.firstFound, system.skipped, hres, hs,
          List.filter_cons, hw]
    · by_cases hsk : (dockerCli.IsErrNotFound err ||
          system.isErrNotSwarmManager dockerCli err) = true
      · simp only [system.inspectAll.range, system.firstFound, system.skipped, hres, hsk,
          List.map_cons, List.filter_append, ih.1, ih.2]
        simp [ih.2]
      · simp [system.inspectAll.range, system.firstFound, system.skipped, hres, hsk]

theorem system.range_all_skipped (dockerCli : system.Client) (ref : String)
    (rows : List system.inspectData)
    (h : ∀ d ∈ rows, system.skipped dockerCli (d.ObjectInspector ref).1 = true) :
    system.inspectAll.range dockerCli "" ref rows =
      ((none, none, some (.other ("错误: 没有该项目: " ++ ref))),
        (rows.map (fun d => (d.ObjectInspector ref).2)).flatten) := by
  induction rows with
  | nil => simp [system.inspectAll.range]
  | cons d rest ih =>
    have hd := h d (List.mem_cons_self _ _)
    have ih2 := ih (fun y hy => h y (List.mem_cons_of_mem _ hy))
    rcases hres : d.ObjectInspector ref with ⟨⟨v, raw, _ | err⟩, events⟩
    · simp [system.skipped, hres] at hd
    · simp only [system.skipped, hres] at hd
      simp [system.inspectAll.range, hres, hd, ih2]

/-- C18. With an empty type constraint, the lookup `inspectAll` builds asks
the inspectors in the order container, image, network, volume, service, task,
node; an inspector is skipped exactly when its error is a not-found error or
contains "This node is not a swarm manager"; the lookup returns the results of
the first inspector that is not skipped, having made the requests up to that
one and no later one; and when all seven are skipped it returns the "no such
item" error naming the reference. -/
theorem inspect_autodetect (dockerCli : system.Client) (getSize : Bool) (ref : String) :
    system.lookups dockerCli getSize ref =
      [(dockerCli.ContainerInspectWithRaw ref getSize, [.ContainerInspectWithRaw ref getSize]),
       (dockerCli.ImageInspectWithRaw ref, [.ImageInspectWithRaw ref]),
       (dockerCli.NetworkInspectWithRaw ref, [.NetworkInspectWithRaw ref]),
       (dockerCli.VolumeInspectWithRaw ref, [.VolumeInspectWithRaw ref]),
       (dockerCli.ServiceInspectWithRaw ref, [.ServiceInspectWithRaw ref]),
       (dockerCli.TaskInspectWithRaw ref, [.TaskInspectWithRaw ref]),
       (dockerCli.NodeInspectWithRaw ref, [.NodeInspectWithRaw ref])] ∧
    (∀ r, system.skipped dockerCli r = true ↔
      ∃ err, r.2.2 = some err ∧ (dockerCli.IsErrNotFound err = true ∨
        strings.Contains (dockerCli.Error err) "This node is not a swarm manager" = true)) ∧
    (∀ pre r post, system.lookups dockerCli getSize ref = pre ++ r :: post →
      (∀ x ∈ pre, system.skipped dockerCli x.1 = true) →
      system.skipped dockerCli r.1 = false →
      (system.inspectAll dockerCli getSize "" ref).1 = r.1 ∧
      (system.inspectAll dockerCli getSize "" ref).2.filter system.Event.isRequest =
        ((pre ++ [r]).map (fun x => x.2)).flatten) ∧
    ((∀ x ∈ system.lookups dockerCli getSize ref, system.skipped dockerCli x.1 = true) →
      (system.inspectAll dockerCli getSize "" ref).1 =
        (none, none, some (.other ("错误: 没有该项目: " ++ ref))) ∧
      (system.inspectAll dockerCli getSize "" ref).2 =
        ((system.lookups dockerCli getSize ref).map (fun x => x.2)).flatten) := by
  have hreq : ∀ x ∈ system.lookups dockerCli getSize ref, ∀ e ∈ x.2,
      system.Event.isRequest e = true := by
    intro x hx e he
    simp only [system.lookups, system.inspectAutodetect, List.map_cons, List.map_nil,
      List.mem_cons, List.mem_singleton, List.not_mem_nil, or_false] at hx
    rcases hx with rfl | rfl | rfl | rfl | rfl | rfl | rfl <;>
      simp [system.inspectContainers, system.inspectImages, system.inspectNetwork,
        system.inspectVolume, system.inspectService, system.inspectTasks,
        system.inspectNode] at he <;>
      subst he <;> rfl
  have hrange := system.range_eq_firstFound dockerCli ref
    (system.inspectAutodetect dockerCli getSize)
  change _ = (system.firstFound dockerCli ref (system.lookups dockerCli getSize ref)).1 ∧
    _ = List.filter system.Event.isRequest
      (system.firstFound dockerCli ref (system.lookups dockerCli getSize ref)).2 at hrange
  refine ⟨rfl, ?_, ?_, ?_⟩
  · intro r
    rcases r with ⟨v, raw, _ | err⟩ <;>
      simp [system.skipped, system.isErrNotSwarmManager]
  · intro pre r post hl hpre hr
    have hff := system.firstFound_first dockerCli ref pre r post hpre hr
    rw [← hl] at hff
    unfold system.inspectAll
    rw [hrange.1, hrange.2, hff]
    refine ⟨rfl, ?_⟩
    apply List.filter_eq_self.2
    intro e he
    simp only [List.mem_flatten, List.mem_map] at he
    obtain ⟨evs, ⟨x, hx, rfl⟩, he⟩ := he
    refine hreq x ?_ e he
    rw [hl]
    simp only [List.mem_append, List.mem_singleton] at hx
    rcases hx with hx | rfl
    · exact List.mem_append_left _ hx
    · exact List.mem_append_right _ (List.mem_cons_self _ _)
  · intro hall
    unfold system.inspectAll
    rw [system.range_all_skipped dockerCli ref _ (by
      intro d hd
      exact hall _ (List.mem_map_of_mem _ hd))]
    exact ⟨rfl, by simp only [system.lookups, List.map_map]; rfl⟩

/-! ## `runPs` -/

theorem string_length_eq_zero (s : String) : s.length = 0 ↔ s = "" := by
  constructor
  · intro h
    have : s.data = [] := List.length_eq_zero.1 h
    exact String.ext this
  · rintro rfl
    rfl

/-- C19. In a run of `runPs` that gets the list of containers, the format
handed to the formatter is the `--format` option when it is not empty;
otherwise the `PsFormat` of the configuration when that is not empty and
`--quiet` is not set; otherwise "table". With `--quiet` and no `--format` it is
"table" whatever the configuration says, and the formatter is told to be
quiet. -/
theorem runPs_format (dockerCli : PsCollaborators) (opts : psOptions)
    (listOptions : ContainerListOptions) (containers : List String)
    (hb : buildContainerListOptions dockerCli opts = .ok listOptions)
    (hl : dockerCli.ContainerList listOptions = (containers, none)) :
    runPs dockerCli opts =
      (none, [.ContainerList listOptions,
        .Write
          { Context :=
              { Output := .Out
                Format :=
                  if opts.format ≠ "" then opts.format
                  else if dockerCli.PsFormat ≠ "" ∧ opts.quiet = false then dockerCli.PsFormat
                  else "table"
                Quiet := opts.quiet
                Trunc := !opts.noTrunc }
            Size := listOptions.Size
            Containers := containers }]) ∧
    (opts.quiet = true → opts.format = "" →
      ∃ psCtx, (runPs dockerCli opts).2 = [.ContainerList listOptions, .Write psCtx] ∧
        psCtx.Context.Format = "table" ∧ psCtx.Context.Quiet = true) := by
  have hrun : runPs dockerCli opts =
      (none, [.ContainerList listOptions,
        .Write
          { Context :=
              { Output := .Out
                Format :=
                  if opts.format ≠ "" then opts.format
                  else if dockerCli.PsFormat ≠ "" ∧ opts.quiet = false then dockerCli.PsFormat
                  else "table"
                Quiet := opts.quiet
                Trunc := !opts.noTrunc }
            Size := listOptions.Size
            Containers := containers }]) := by
    unfold runPs
    simp only [hb, hl]
    have h1 : (opts.format.length == 0) = decide (opts.format = "") := by
      by_cases h : opts.format = ""
      · simp [h]
      · simp [h, string_length_eq_zero]
    have h2 : decide (dockerCli.PsFormat.length > 0) = decide (dockerCli.PsFormat ≠ "") := by
      by_cases h : dockerCli.PsFormat = ""
      · simp [h]
      · have : dockerCli.PsFormat.length ≠ 0 := fun h0 => h ((string_length_eq_zero _).1 h0)
        simp [h, Nat.pos_of_ne_zero this]
    rw [h1, h2]
    by_cases hf : opts.format = "" <;> by_cases hp : dockerCli.PsFormat = "" <;>
      cases hq : opts.quiet <;> simp [hf, hp]
  refine ⟨hrun, ?_⟩
  intro hq hf
  rw [hrun]
  exact ⟨_, rfl, by simp [hq, hf], hq⟩

theorem runPs_format_witness :
    buildContainerListOptions (samplePs "\x7b\x7b.ID\x7d\x7d") { quiet := true } =
      .ok { All := false, Limit := -1, Size := false, Filter := [] } ∧
    (samplePs "\x7b\x7b.ID\x7d\x7d").ContainerList
      { All := false, Limit := -1, Size := false, Filter := [] } = (["c1", "c2"], none) ∧
    runPs (samplePs "\x7b\x7b.ID\x7d\x7d") { quiet := true } =
      (none, [.ContainerList { All := false, Limit := -1, Size := false, Filter := [] },
        .Write
          { Context := { Output := .Out, Format := "table", Quiet := true, Trunc := true }
            Size := false
            Containers := ["c1", "c2"] }]) :=
  ⟨rfl, rfl,
    (runPs_format (samplePs "\x7b\x7b.ID\x7d\x7d") { quiet := true }
      { All := false, Limit := -1, Size := false, Filter := [] } ["c1", "c2"]
      rfl rfl).1⟩

/-! ## `SetDefaultOptions` -/

/-- C20. `SetDefaultOptions` returns for every `CommonOptions` whose
`TLSOptions` is not nil (as `InstallFlags` leaves it), and panics only on a nil
`TLSOptions` with TLS turned on. After it, `TLS` is true if and only if it was
true before, or `--tlsverify` was given on the command line, or `TLSVerify` is
true; and `TLSOptions` is nil if and only if the resulting `TLS` is false. -/
theorem setDefaultOptions_tls (commonOpts : flags.CommonOptions) (env : flags.Env) :
    (commonOpts.TLSOptions ≠ none → (commonOpts.SetDefaultOptions env).isSome = true) ∧
    (commonOpts.SetDefaultOptions env = none →
      commonOpts.TLSOptions = none ∧
      (commonOpts.TLS || env.Changed "tlsverify" || commonOpts.TLSVerify) = true) ∧
    (∀ after, commonOpts.SetDefaultOptions env = some after →
      (after.TLS = true ↔
        (commonOpts.TLS = true ∨ env.Changed "tlsverify" = true ∨ commonOpts.TLSVerify = true)) ∧
      (after.TLSOptions = none ↔ after.TLS = false)) := by
  unfold flags.CommonOptions.SetDefaultOptions flags.FlagTLSVerify
  rcases commonOpts with ⟨dbg, hosts, lvl, tls, verify, tlsOptions, key⟩
  cases tls <;> cases verify <;> cases hc : env.Changed "tlsverify" <;>
    cases tlsOptions <;> simp

/-- C21. When TLS is on after `SetDefaultOptions` (and `TLSOptions` was not
nil, so that it returns), `CertFile` is the empty string if the `--tlscert`
flag was not given and the file at the path it held does not exist, and is
left as it was in every other case; the same holds for `KeyFile` with
`--tlskey`; `CAFile` is as it was. -/
theorem setDefaultOptions_cert_key (commonOpts : flags.CommonOptions) (env : flags.Env)
    (tlsBefore : tlsconfig.Options)
    (h : commonOpts.TLSOptions = some tlsBefore)
    (hon : (commonOpts.TLS || env.Changed "tlsverify" || commonOpts.TLSVerify) = true) :
    ∃ after tlsAfter, commonOpts.SetDefaultOptions env = some after ∧ after.TLS = true ∧
      after.TLSOptions = some tlsAfter ∧
      tlsAfter.CertFile =
        (if env.Changed "tlscert" = false ∧ env.IsNotExist tlsBefore.CertFile = true then ""
          else tlsBefore.CertFile) ∧
      tlsAfter.KeyFile =
        (if env.Changed "tlskey" = false ∧ env.IsNotExist tlsBefore.KeyFile = true then ""
          else tlsBefore.KeyFile) ∧
      tlsAfter.CAFile = tlsBefore.CAFile := by
  unfold flags.CommonOptions.SetDefaultOptions flags.FlagTLSVerify
  rcases commonOpts with ⟨dbg, hosts, lvl, tls, verify, tlsOptions, key⟩
  simp only at h
  subst h
  cases tls <;> cases verify <;> cases hc : env.Changed "tlsverify" <;> simp [hc] at hon ⊢ <;>
    cases h1 : env.Changed "tlscert" <;> cases h2 : env.Changed "tlskey" <;>
    cases h3 : env.IsNotExist tlsBefore.CertFile <;>
    cases h4 : env.IsNotExist tlsBefore.KeyFile <;> simp [h1, h2, h3, h4]

theorem setDefaultOptions_cert_key_witness :
    ∃ after tlsAfter,
      flags.CommonOptions.SetDefaultOptions
        { TLS := true
          TLSOptions := some { CAFile := "/c/ca.pem", CertFile := "/c/cert.pem",
                               KeyFile := "/c/key.pem" } }
        ⟨fun f => f == "tlskey", fun _ => true⟩ = some after ∧ after.TLS = true ∧
      after.TLSOptions = some tlsAfter ∧
      tlsAfter.CertFile =
        (if ("tlscert" == "tlskey") = false ∧ true = true then "" else "/c/cert.pem") ∧
      tlsAfter.KeyFile =
        (if ("tlskey" == "tlskey") = false ∧ true = true then "" else "/c/key.pem") ∧
      tlsAfter.CAFile = "/c/ca.pem" :=
  setDefaultOptions_cert_key
    { TLS := true
      TLSOptions := some { CAFile := "/c/ca.pem", CertFile := "/c/cert.pem",
                           KeyFile := "/c/key.pem" } }
    ⟨fun f => f == "tlskey", fun _ => true⟩
    { CAFile := "/c/ca.pem", CertFile := "/c/cert.pem", KeyFile := "/c/key.pem" } rfl rfl

/-! ## `FlagErrorFunc`, `runInspect` and the exit status -/

/-- C22. `FlagErrorFunc` returns nil for a nil error; for a non-nil error it
returns a `StatusError` with `StatusCode` 125 whose `Status` is the error's
message, a newline and the text "See '<command path> --help'.", followed by
an empty line and the command's usage string when the command has
subcommands, and by nothing when it has none. -/
theorem flagErrorFunc_status (errorText : GoError → String) (cmd : cobra.Command) :
    cli.FlagErrorFunc errorText cmd none = none ∧
    ∀ err, cli.FlagErrorFunc errorText cmd (some err) =
      some (.StatusError
        { Status :=
            if cmd.HasSubCommands = true then
              errorText err ++ "\nSee \x27" ++ cmd.CommandPath ++ " --help\x27." ++
                ("\n\n" ++ cmd.UsageString)
            else errorText err ++ "\nSee \x27" ++ cmd.CommandPath ++ " --help\x27."
          StatusCode := 125 }) := by
  refine ⟨rfl, fun err => ?_⟩
  unfold cli.FlagErrorFunc
  cases cmd.HasSubCommands <;> simp

/-- C24. `runInspect` goes on to `inspect.Inspect`, with the lookup of
`inspectAll` for the type, exactly for the `--type` values "" (empty),
container, image, node, network, service, volume and task; for every other
value it returns the invalid `--type` error with the quoted value, and its run
has no event: no request and no write. -/
theorem runInspect_types (dockerCli : system.Client) (env : system.InspectEnv)
    (opts : system.inspectOptions) :
    (opts.inspectType ∈
        ["", "container", "image", "node", "network", "service", "volume", "task"] →
      system.runInspect dockerCli env opts =
        env.Inspect .Out opts.ids opts.format
          (system.inspectAll dockerCli opts.size opts.inspectType)) ∧
    (opts.inspectType ∉
        ["", "container", "image", "node", "network", "service", "volume", "task"] →
      system.runInspect dockerCli env opts =
        (some (.other ("对 --type而言，" ++ env.quote opts.inspectType ++ " 不是一个有效的值")),
          [])) := by
  unfold system.runInspect
  constructor
  · intro h
    rw [if_pos h]
  · intro h
    rw [if_neg h]

/-- C26: the code at a flag error. For every error and every command, the
`StatusError` that `FlagErrorFunc` builds has `StatusCode` 125, and `main`
writes its `Status` to stderr and calls `os.Exit(1)`, not `os.Exit(125)`. -/
theorem main_exits_one_on_flag_error (errorText : GoError → String) (cmd : cobra.Command)
    (err : GoError) :
    ∃ sterr, cli.FlagErrorFunc errorText cmd (some err) = some (.StatusError sterr) ∧
      sterr.StatusCode = 125 ∧
      main (cli.FlagErrorFunc errorText cmd (some err)) =
        { events := [.Fprintln .Err [.str sterr.Status]], code := some 1 } := by
  refine ⟨_, rfl, rfl, ?_⟩
  have hne : ∀ a b : String, a ++ "\nSee \x27" ++ b ≠ "" := by
    intro a b h
    have := congrArg String.length h
    simp [String.length_append] at this
    have h2 : "\nSee \x27".length = 6 := by decide
    omega
  have hs : errorText err ++ "\nSee \x27" ++ cmd.CommandPath ++ " --help\x27." ++
      (if cmd.HasSubCommands = true then "\n\n" ++ cmd.UsageString else "") ≠ "" := by
    rw [String.append_assoc, String.append_assoc]
    exact hne _ _
  simp only [cli.FlagErrorFunc, main, GoError.asStatusError]
  rw [if_pos hs]

/-- C27: the code at a lookup without `--size`. With `getSize` false and the
type constraint "service", the lookup finds the service "web" and writes the
"--size ignored" warning to stderr. -/
theorem size_warning_without_size :
    (system.inspectAll system.sampleClient false "service" "web").2 =
      [.ServiceInspectWithRaw "web",
       .Fprintf .Err "警告: --size 被忽略 %s\n" [.str "service"]] := by
  decide

/-! ## `runUpdate` -/

/-- C23. When no flag was set (`nFlag = 0`), `runUpdate` returns the "you
must provide one or more flags" error, whatever containers are named, and its
run has no event: no option value is parsed, no update request is sent and
nothing is written. -/
theorem runUpdate_without_flag (dockerCli : UpdateCollaborators) (opts : updateOptions)
    (h : opts.nFlag = 0) :
    runUpdate dockerCli opts =
      (some (.other "当使用此命令时，您必须提供一个或多个命令参数。"), []) := by
  simp [runUpdate, h]

theorem runUpdate_without_flag_witness :
    (0 : Int) = 0 ∧
    runUpdate sampleUpdate { nFlag := 0, memoryString := "4m", containers := ["c1", "gone"] } =
      (some (.other "当使用此命令时，您必须提供一个或多个命令参数。"), []) :=
  ⟨rfl, runUpdate_without_flag sampleUpdate
    { nFlag := 0, memoryString := "4m", containers := ["c1", "gone"] } rfl⟩

theorem runUpdate.bytes_events (dockerCli : UpdateCollaborators) (option : String) :
    ∀ e ∈ (runUpdate.bytes dockerCli option).2,
      e.isContainerUpdate = false ∧ e.isWrite = false := by
  unfold runUpdate.bytes
  split <;> simp [UpdateEvent.isContainerUpdate, UpdateEvent.isWrite]

theorem runUpdate.updateConfig_events (dockerCli : UpdateCollaborators) (opts : updateOptions) :
    ∀ e ∈ (runUpdate.updateConfig dockerCli opts).2,
      e.isContainerUpdate = false ∧ e.isWrite = false := by
  have hb := runUpdate.bytes_events dockerCli
  have h3 : ∀ e ∈ (if opts.memorySwap ≠ "" then
      (if opts.memorySwap = "-1" then (((-1 : Int), (none : Option GoError)), [])
       else runUpdate.bytes dockerCli opts.memorySwap)
    else ((0, none), [])).2, e.isContainerUpdate = false ∧ e.isWrite = false := by
    split
    · split
      · simp
      · exact hb _
    · simp
  have h5 : ∀ e ∈ (if opts.restartPolicy ≠ "" then
      (dockerCli.ParseRestartPolicy opts.restartPolicy,
        [UpdateEvent.ParseRestartPolicy opts.restartPolicy])
    else ((({ } : RestartPolicy), (none : Option GoError)), [])).2,
      e.isContainerUpdate = false ∧ e.isWrite = false := by
    split <;> simp [UpdateEvent.isContainerUpdate, UpdateEvent.isWrite]
  unfold runUpdate.updateConfig
  rcases r1 : runUpdate.bytes dockerCli opts.memoryString with ⟨⟨m1, _ | e1⟩, ev1⟩
  · have k1 := hb opts.memoryString
    rw [r1] at k1
    rcases r2 : runUpdate.bytes dockerCli opts.memoryReservation with ⟨⟨m2, _ | e2⟩, ev2⟩
    · have k2 := hb opts.memoryReservation
      rw [r2] at k2
      rcases r3 : (if opts.memorySwap ≠ "" then
          (if opts.memorySwap = "-1" then (((-1 : Int), (none : Option GoError)), [])
           else runUpdate.bytes dockerCli opts.memorySwap)
        else ((0, none), [])) with ⟨⟨m3, _ | e3⟩, ev3⟩
      · rw [r3] at h3
        rcases r4 : runUpdate.bytes dockerCli opts.kernelMemory with ⟨⟨m4, _ | e4⟩, ev4⟩
        · have k4 := hb opts.kernelMemory
          rw [r4] at k4
          rcases r5 : (if opts.restartPolicy ≠ "" then
              (dockerCli.ParseRestartPolicy opts.restartPolicy,
                [UpdateEvent.ParseRestartPolicy opts.restartPolicy])
            else ((({ } : RestartPolicy), (none : Option GoError)), [])) with
            ⟨⟨p, _ | e5⟩, ev5⟩
          · rw [r5] at h5
            intro e he
            simp only [List.mem_append] at he
            rcases he with (((he | he) | he) | he) | he
            · exact k1 e he
            · exact k2 e he
            · exact h3 e he
            · exact k4 e he
            · exact h5 e he
          · rw [r5] at h5
            intro e he
            simp only [List.mem_append] at he
            rcases he with (((he | he) | he) | he) | he
            · exact k1 e he
            · exact k2 e he
            · exact h3 e he
            · exact k4 e he
            · exact h5 e he
        · have k4 := hb opts.kernelMemory
          rw [r4] at k4
          intro e he
          simp only [List.mem_append] at he
          rcases he with ((he | he) | he) | he
          · exact k1 e he
          · exact k2 e he
          · exact h3 e he
          · exact k4 e he
      · rw [r3] at h3
        intro e he
        simp only [List.mem_append] at he
        rcases he with (he | he) | he
        · exact k1 e he
        · exact k2 e he
        · exact h3 e he
    · have k2 := hb opts.memoryReservation
      rw [r2] at k2
      intro e he
      simp only [List.mem_append] at he
      rcases he with he | he
      · exact k1 e he
      · exact k2 e he
  · have k1 := hb opts.memoryString
    rw [r1] at k1
    exact k1

theorem runUpdate.range_eq (dockerCli : UpdateCollaborators) (cfg : UpdateConfig) :
    ∀ (cs warns errs : List String),
      runUpdate.range dockerCli cfg cs warns errs =
        (warns ++ (cs.map (fun c => (dockerCli.ContainerUpdate c cfg).1)).flatten,
         errs ++ (cs.filterMap (fun c => (dockerCli.ContainerUpdate c cfg).2)).map
           dockerCli.Error,
         (cs.map (fun c => UpdateEvent.ContainerUpdate c cfg ::
            (if (dockerCli.ContainerUpdate c cfg).2 = none
              then [UpdateEvent.Fprintf .Out "%s\n" [c]] else []))).flatten) := by
  intro cs
  induction cs with
  | nil => intro warns errs; simp [runUpdate.range]
  | cons c rest ih =>
    intro warns errs
    rcases hc : dockerCli.ContainerUpdate c cfg with ⟨w, _ | e⟩
    · simp [runUpdate.range, hc, ih, List.append_assoc]
    · simp [runUpdate.range, hc, ih, List.append_assoc]

theorem runUpdate.range_requests (dockerCli : UpdateCollaborators) (cfg : UpdateConfig)
    (cs : List String) :
    ((cs.map (fun c => UpdateEvent.ContainerUpdate c cfg ::
        (if (dockerCli.ContainerUpdate c cfg).2 = none
          then [UpdateEvent.Fprintf .Out "%s\n" [c]] else []))).flatten).filter
      UpdateEvent.isContainerUpdate = cs.map (fun c => UpdateEvent.ContainerUpdate c cfg) := by
  induction cs with
  | nil => rfl
  | cons c rest ih =>
    by_cases h : (dockerCli.ContainerUpdate c cfg).2 = none <;>
      simp [h, List.filter_cons, UpdateEvent.isContainerUpdate, ih]

theorem runUpdate.range_writes (dockerCli : UpdateCollaborators) (cfg : UpdateConfig)
    (cs : List String) :
    ((cs.map (fun c => UpdateEvent.ContainerUpdate c cfg ::
        (if (dockerCli.ContainerUpdate c cfg).2 = none
          then [UpdateEvent.Fprintf .Out "%s\n" [c]] else []))).flatten).filter
      UpdateEvent.isWrite =
      (cs.filter (fun c => (dockerCli.ContainerUpdate c cfg).2.isNone)).map
        (fun c => UpdateEvent.Fprintf .Out "%s\n" [c]) := by
  induction cs with
  | nil => rfl
  | cons c rest ih =>
    by_cases h : (dockerCli.ContainerUpdate c cfg).2 = none <;>
      simp [h, List.filter_cons, UpdateEvent.isWrite, ih]

theorem runUpdate_eq (dockerCli : UpdateCollaborators) (opts : updateOptions)
    (cfg : UpdateConfig)
    (hn : opts.nFlag ≠ 0)
    (hp : (runUpdate.updateConfig dockerCli opts).1 = .ok cfg) :
    runUpdate dockerCli opts =
      (if opts.containers.filterMap (fun c => (dockerCli.ContainerUpdate c cfg).2) = []
        then none
        else some (.other (strings.Join
          ((opts.containers.filterMap (fun c => (dockerCli.ContainerUpdate c cfg).2)).map
            dockerCli.Error) "\n")),
       (runUpdate.updateConfig dockerCli opts).2 ++
        (opts.containers.map (fun c => UpdateEvent.ContainerUpdate c cfg ::
          (if (dockerCli.ContainerUpdate c cfg).2 = none
            then [UpdateEvent.Fprintf .Out "%s\n" [c]] else []))).flatten ++
        (if (opts.containers.map (fun c => (dockerCli.ContainerUpdate c cfg).1)).flatten = []
          then []
          else [UpdateEvent.Fprintf .Out "%s"
            [strings.Join
              (opts.containers.map (fun c => (dockerCli.ContainerUpdate c cfg).1)).flatten
              "\n"]])) := by
  have hnf : (opts.nFlag == 0) = false := by simpa using hn
  rcases hu : runUpdate.updateConfig dockerCli opts with ⟨res, pev⟩
  rw [hu] at hp
  simp only at hp
  subst hp
  unfold runUpdate
  simp only [hnf, hu, runUpdate.range_eq, List.nil_append, Bool.false_eq_true, if_false,
    List.length_map]
  by_cases hwarn : (opts.containers.map (fun c => (dockerCli.ContainerUpdate c cfg).1)).flatten
      = []
  · by_cases herr : (opts.containers.filterMap
        (fun c => (dockerCli.ContainerUpdate c cfg).2)) = []
    · simp only [hwarn, herr, List.length_nil, gt_iff_lt, Nat.lt_irrefl, if_false, if_true,
        List.append_nil]
    · have hpos := List.length_pos.2 herr
      simp only [hwarn, herr, hpos, List.length_nil, gt_iff_lt, Nat.lt_irrefl, if_false,
        if_true, List.append_nil]
  · have hwpos := List.length_pos.2 hwarn
    by_cases herr : (opts.containers.filterMap
        (fun c => (dockerCli.ContainerUpdate c cfg).2)) = []
    · simp only [hwarn, herr, hwpos, List.length_nil, gt_iff_lt, Nat.lt_irrefl, if_false,
        if_true]
    · have hpos := List.length_pos.2 herr
      simp only [hwarn, herr, hpos, hwpos, gt_iff_lt, if_false, if_true]

/-- C28. When at least one flag is set and all option values parse into the
update configuration `cfg`, `runUpdate` sends one update request for every
named container, in the given order, whether or not earlier ones failed; it
writes to stdout, one `Fprintf "%s\n"` each and in order, the names of exactly
the containers whose update succeeded (followed, when the responses carry
warnings, by one write of the warnings); it returns nil if and only if no
update failed, and otherwise the error whose message is the failed updates'
messages, in the order of the containers, joined by newlines. -/
theorem runUpdate_updates_all (dockerCli : UpdateCollaborators) (opts : updateOptions)
    (cfg : UpdateConfig)
    (hn : opts.nFlag ≠ 0)
    (hp : (runUpdate.updateConfig dockerCli opts).1 = .ok cfg) :
    (runUpdate dockerCli opts).2.filter UpdateEvent.isContainerUpdate =
      opts.containers.map (fun c => UpdateEvent.ContainerUpdate c cfg) ∧
    (runUpdate dockerCli opts).2.filter UpdateEvent.isWrite =
      (opts.containers.filter (fun c => (dockerCli.ContainerUpdate c cfg).2.isNone)).map
          (fun c => UpdateEvent.Fprintf .Out "%s\n" [c]) ++
        (if (opts.containers.map (fun c => (dockerCli.ContainerUpdate c cfg).1)).flatten = []
          then []
          else [UpdateEvent.Fprintf .Out "%s"
            [strings.Join
              (opts.containers.map (fun c => (dockerCli.ContainerUpdate c cfg).1)).flatten
              "\n"]]) ∧
    ((runUpdate dockerCli opts).1 = none ↔
      ∀ c ∈ opts.containers, (dockerCli.ContainerUpdate c cfg).2 = none) ∧
    ((runUpdate dockerCli opts).1 ≠ none →
      (runUpdate dockerCli opts).1 = some (.other (strings.Join
        ((opts.containers.filterMap (fun c => (dockerCli.ContainerUpdate c cfg).2)).map
          dockerCli.Error) "\n"))) := by
  have hev := runUpdate.updateConfig_events dockerCli opts
  have hf1 : (runUpdate.updateConfig dockerCli opts).2.filter UpdateEvent.isContainerUpdate
      = [] := by
    rw [List.filter_eq_nil_iff]
    intro e he
    simp [(hev e he).1]
  have hf2 : (runUpdate.updateConfig dockerCli opts).2.filter UpdateEvent.isWrite = [] := by
    rw [List.filter_eq_nil_iff]
    intro e he
    simp [(hev e he).2]
  have hfm : (opts.containers.filterMap (fun c => (dockerCli.ContainerUpdate c cfg).2)) = [] ↔
      ∀ c ∈ opts.containers, (dockerCli.ContainerUpdate c cfg).2 = none := by
    rw [List.filterMap_eq_nil_iff]
  rw [runUpdate_eq dockerCli opts cfg hn hp]
  refine ⟨?_, ?_, ?_, ?_⟩
  · rw [List.filter_append, List.filter_append, hf1, runUpdate.range_requests]
    split <;> simp [UpdateEvent.isContainerUpdate]
  · rw [List.filter_append, List.filter_append, hf2, runUpdate.range_writes]
    split <;> simp [UpdateEvent.isWrite]
  · rw [← hfm]
    by_cases h : opts.containers.filterMap (fun c => (dockerCli.ContainerUpdate c cfg).2) = []
    · simp only [h, if_true]
    · simp only [h, if_false]
      simp
  · intro hne
    split
    · rename_i h
      simp [h] at hne
    · rfl

theorem runUpdate_updates_all_witness :
    sampleUpdateOptions.nFlag ≠ 0 ∧
    (runUpdate sampleUpdate sampleUpdateOptions).2.filter UpdateEvent.isWrite =
      [.Fprintf .Out "%s\n" ["c1"], .Fprintf .Out "%s\n" ["c2"],
       .Fprintf .Out "%s" ["swap limit ignored"]] ∧
    (runUpdate sampleUpdate sampleUpdateOptions).1 =
      some (.other "No such container: gone") :=
  ⟨by decide,
    (runUpdate_updates_all sampleUpdate sampleUpdateOptions sampleUpdateConfig
      (by decide) rfl).2.1,
    (runUpdate_updates_all sampleUpdate sampleUpdateOptions sampleUpdateConfig
      (by decide) rfl).2.2.2 (by decide)⟩

theorem swarm.printJoinCommand_no_update (dockerCli : swarm.Client)
    (rotated : Option swarm.UpdateFlags) (nodeID : String) (worker manager : Bool) :
    ∀ e ∈ (swarm.printJoinCommand dockerCli rotated nodeID worker manager).2,
      e.isSwarmUpdate = false := by
  unfold swarm.printJoinCommand
  rcases h1 : dockerCli.SwarmInspect rotated with ⟨sw, _ | e1⟩ <;>
  rcases h2 : dockerCli.NodeInspectWithRaw nodeID with ⟨node, _ | e2⟩ <;>
  rcases h3 : node.ManagerStatus with _ | addr <;>
  cases worker <;> cases manager <;>
  simp [h3, swarm.Event.isSwarmUpdate]

theorem swarm.display_no_update (dockerCli : swarm.Client) (quiet : Bool)
    (rotated : Option swarm.UpdateFlags) (worker manager : Bool) :
    ∀ e ∈ (swarm.newJoinTokenCommand.display dockerCli quiet rotated worker manager).2,
      e.isSwarmUpdate = false := by
  have hp := swarm.printJoinCommand_no_update dockerCli rotated
  unfold swarm.newJoinTokenCommand.display
  rcases h1 : dockerCli.SwarmInspect rotated with ⟨sw, _ | e1⟩ <;>
  rcases h2 : dockerCli.Info with ⟨nodeID, _ | e2⟩ <;>
  cases quiet <;> cases worker <;>
  simp [swarm.Event.isSwarmUpdate] <;>
  exact fun e he => by simpa [swarm.Event.isSwarmUpdate] using hp nodeID _ _ e he

theorem swarm.display_head (dockerCli : swarm.Client) (quiet : Bool)
    (rotated : Option swarm.UpdateFlags) (worker manager : Bool) :
    (swarm.newJoinTokenCommand.display dockerCli quiet rotated worker manager).2.head? =
      some .SwarmInspect := by
  unfold swarm.newJoinTokenCommand.display
  rcases h1 : dockerCli.SwarmInspect rotated with ⟨sw, _ | e1⟩ <;>
  rcases h2 : dockerCli.Info with ⟨nodeID, _ | e2⟩ <;>
  cases quiet <;> cases worker <;> simp

theorem swarm.display_quiet (dockerCli : swarm.Client)
    (rotated : Option swarm.UpdateFlags) (worker manager : Bool) :
    (swarm.newJoinTokenCommand.display dockerCli true rotated worker manager).1 =
      (dockerCli.SwarmInspect rotated).2 ∧
    (swarm.newJoinTokenCommand.display dockerCli true rotated worker manager).2.filter
        (fun e => !e.isRequest) =
      if (dockerCli.SwarmInspect rotated).2 = none then
        [.Fprintln .Out
          [if worker then (dockerCli.SwarmInspect rotated).1.JoinTokens.Worker
            else (dockerCli.SwarmInspect rotated).1.JoinTokens.Manager]]
      else [] := by
  unfold swarm.newJoinTokenCommand.display
  rcases h1 : dockerCli.SwarmInspect rotated with ⟨sw, _ | e1⟩ <;>
  cases worker <;> simp [swarm.Event.isRequest]

theorem swarm.RunE_roles (dockerCli : swarm.Client) (rotate quiet : Bool) (arg0 : String) :
    ((arg0 ≠ "worker" ∧ arg0 ≠ "manager") →
      swarm.newJoinTokenCommand.RunE dockerCli rotate quiet arg0 =
        (some (.other ("未知的角色 " ++ arg0)), [])) ∧
    ((arg0 = "worker" ∨ arg0 = "manager") →
      (swarm.newJoinTokenCommand.RunE dockerCli rotate quiet arg0).2.head? =
        some .SwarmInspect) ∧
    (∀ v s f, swarm.Event.SwarmUpdate v s f ∈
        (swarm.newJoinTokenCommand.RunE dockerCli rotate quiet arg0).2 →
      rotate = true ∧ (f.RotateWorkerToken = true ↔ arg0 = "worker") ∧
        (f.RotateManagerToken = true ↔ arg0 = "manager")) ∧
    (rotate = true → (arg0 = "worker" ∨ arg0 = "manager") →
      (dockerCli.SwarmInspect none).2 = none →
      (swarm.newJoinTokenCommand.RunE dockerCli rotate quiet arg0).2.filter
          swarm.Event.isSwarmUpdate =
        [.SwarmUpdate (dockerCli.SwarmInspect none).1.Version
          (dockerCli.SwarmInspect none).1.Spec
          ⟨arg0 == "worker", arg0 == "manager"⟩]) ∧
    (quiet = true →
      (swarm.newJoinTokenCommand.RunE dockerCli rotate quiet arg0).2.filter
          (fun e => !e.isRequest) =
        if (swarm.newJoinTokenCommand.RunE dockerCli rotate quiet arg0).1 = none then
          [.Fprintln .Out
            [if arg0 = "worker" then
              (dockerCli.SwarmInspect
                (if rotate then some ⟨arg0 == "worker", arg0 == "manager"⟩ else none)).1.JoinTokens.Worker
            else
              (dockerCli.SwarmInspect
                (if rotate then some ⟨arg0 == "worker", arg0 == "manager"⟩ else none)).1.JoinTokens.Manager]]
        else []) := by
  have hdu := swarm.display_no_update dockerCli quiet
  have hdh := swarm.display_head dockerCli quiet
  have hdq := swarm.display_quiet dockerCli
  by_cases hacc : arg0 = "worker" ∨ arg0 = "manager"
  · have hb : (!(arg0 == "worker") && !(arg0 == "manager")) = false := by
      rcases hacc with h | h <;> subst h <;> decide
    have hnot : ¬ (arg0 ≠ "worker" ∧ arg0 ≠ "manager") := by
      rcases hacc with h | h <;> simp [h]
    cases rotate
    · have hrun : swarm.newJoinTokenCommand.RunE dockerCli false quiet arg0 =
          swarm.newJoinTokenCommand.display dockerCli quiet none (arg0 == "worker")
            (arg0 == "manager") := by
        unfold swarm.newJoinTokenCommand.RunE
        simp only [hb, Bool.false_eq_true, if_false]
      rw [hrun]
      refine ⟨fun h => absurd h hnot, fun _ => hdh _ _ _, ?_, ?_, ?_⟩
      · intro v s f hmem
        simpa [swarm.Event.isSwarmUpdate] using hdu _ _ _ _ hmem
      · intro h
        cases h
      · intro hq
        subst hq
        rw [(hdq _ _ _).1, (hdq _ _ _).2]
        simp
    · have hflags : ∀ f : swarm.UpdateFlags, f = ⟨arg0 == "worker", arg0 == "manager"⟩ →
          (f.RotateWorkerToken = true ↔ arg0 = "worker") ∧
          (f.RotateManagerToken = true ↔ arg0 = "manager") := by
        intro f hf
        subst hf
        simp
      rcases h1 : dockerCli.SwarmInspect none with ⟨sw1, _ | e1⟩
      · rcases h2 : dockerCli.SwarmUpdate sw1.Version sw1.Spec
            ⟨arg0 == "worker", arg0 == "manager"⟩ with _ | e2
        · have hrun : swarm.newJoinTokenCommand.RunE dockerCli true quiet arg0 =
              ((swarm.newJoinTokenCommand.display dockerCli quiet
                  (some ⟨arg0 == "worker", arg0 == "manager"⟩) (arg0 == "worker")
                  (arg0 == "manager")).1,
                (if (!quiet) = true then
                  [.SwarmInspect,
                    .SwarmUpdate sw1.Version sw1.Spec ⟨arg0 == "worker", arg0 == "manager"⟩,
                    .Fprintf .Out "成功轮换 %s 加入令牌。\n\n" [arg0]]
                else
                  [.SwarmInspect,
                    .SwarmUpdate sw1.Version sw1.Spec ⟨arg0 == "worker", arg0 == "manager"⟩])
                ++ (swarm.newJoinTokenCommand.display dockerCli quiet
                  (some ⟨arg0 == "worker", arg0 == "manager"⟩) (arg0 == "worker")
                  (arg0 == "manager")).2) := by
            unfold swarm.newJoinTokenCommand.RunE
            simp only [hb, h1, h2, Bool.false_eq_true, if_false, if_true]
            cases quiet <;> rfl
          rw [hrun]
          have hfil : (swarm.newJoinTokenCommand.display dockerCli quiet
                (some ⟨arg0 == "worker", arg0 == "manager"⟩) (arg0 == "worker")
                (arg0 == "manager")).2.filter swarm.Event.isSwarmUpdate = [] := by
            rw [List.filter_eq_nil_iff]
            intro e he
            simp [hdu _ _ _ e he]
          refine ⟨fun h => absurd h hnot, ?_, ?_, ?_, ?_⟩
          · intro _
            cases quiet <;> rfl
          · intro v s f hmem
            refine ⟨rfl, ?_⟩
            apply hflags
            rcases List.mem_append.1 hmem with h | h
            · cases quiet <;> simp at h <;> exact h.2.2
            · have := hdu _ _ _ _ h
              simp [swarm.Event.isSwarmUpdate] at this
          · intro _ _ _
            rw [List.filter_append, hfil]
            cases quiet <;> simp [swarm.Event.isSwarmUpdate]
          · intro hq
            subst hq
            rw [List.filter_append, (hdq _ _ _).1, (hdq _ _ _).2]
            simp [swarm.Event.isRequest]
        · have hrun : swarm.newJoinTokenCommand.RunE dockerCli true quiet arg0 =
              (some e2, [.SwarmInspect,
                .SwarmUpdate sw1.Version sw1.Spec ⟨arg0 == "worker", arg0 == "manager"⟩]) := by
            unfold swarm.newJoinTokenCommand.RunE
            simp only [hb, h1, h2, Bool.false_eq_true, if_false, if_true]
          rw [hrun]
          refine ⟨fun h => absurd h hnot, fun _ => rfl, ?_, ?_, ?_⟩
          · intro v s f hmem
            refine ⟨rfl, ?_⟩
            apply hflags
            simp at hmem
            exact hmem.2.2
          · intro _ _ _
            simp [swarm.Event.isSwarmUpdate]
          · intro _
            simp [swarm.Event.isRequest]
      · have hrun : swarm.newJoinTokenCommand.RunE dockerCli true quiet arg0 =
            (some e1, [.SwarmInspect]) := by
          unfold swarm.newJoinTokenCommand.RunE
          simp only [hb, h1, Bool.false_eq_true, if_false, if_true]
        rw [hrun]
        refine ⟨fun h => absurd h hnot, fun _ => rfl, ?_, ?_, ?_⟩
        · intro v s f hmem
          simp at hmem
        · intro _ _ h
          simp at h
        · intro _
          simp [swarm.Event.isRequest]
  · have hne : arg0 ≠ "worker" ∧ arg0 ≠ "manager" := by
      constructor
      · intro h
        exact hacc (Or.inl h)
      · intro h
        exact hacc (Or.inr h)
    have hrun : swarm.newJoinTokenCommand.RunE dockerCli rotate quiet arg0 =
        (some (.other ("未知的角色 " ++ arg0)), []) := by
      unfold swarm.newJoinTokenCommand.RunE
      simp [hne.1, hne.2]
    rw [hrun]
    refine ⟨fun _ => rfl, fun h => absurd h hacc, ?_, ?_, ?_⟩
    · intro v s f hmem
      simp at hmem
    · intro _ h
      exact absurd h hacc
    · intro _
      simp

theorem swarm.RunE_quiet (dockerCli : swarm.Client) (rotate quiet : Bool) (arg0 : String) :
    (quiet = true → (arg0 = "worker" ∨ arg0 = "manager") →
      (rotate = true →
        (dockerCli.SwarmInspect none).2 = none ∧
        dockerCli.SwarmUpdate (dockerCli.SwarmInspect none).1.Version
          (dockerCli.SwarmInspect none).1.Spec ⟨arg0 == "worker", arg0 == "manager"⟩ = none) →
      (dockerCli.SwarmInspect
        (if rotate then some ⟨arg0 == "worker", arg0 == "manager"⟩ else none)).2 = none →
      swarm.newJoinTokenCommand.RunE dockerCli rotate quiet arg0 =
        (none,
          (if rotate then
            [.SwarmInspect,
              .SwarmUpdate (dockerCli.SwarmInspect none).1.Version
                (dockerCli.SwarmInspect none).1.Spec ⟨arg0 == "worker", arg0 == "manager"⟩]
          else []) ++
          [.SwarmInspect,
            .Fprintln .Out
              [if arg0 = "worker" then
                (dockerCli.SwarmInspect
                  (if rotate then some ⟨arg0 == "worker", arg0 == "manager"⟩
                    else none)).1.JoinTokens.Worker
              else
                (dockerCli.SwarmInspect
                  (if rotate then some ⟨arg0 == "worker", arg0 == "manager"⟩
                    else none)).1.JoinTokens.Manager]])) := by
  intro hq hacc hrot hins
  subst hq
  have hb : (!(arg0 == "worker") && !(arg0 == "manager")) = false := by
    rcases hacc with h | h <;> subst h <;> decide
  cases rotate
  · simp only [Bool.false_eq_true, if_false] at hins
    rcases h3 : dockerCli.SwarmInspect none with ⟨sw3, _ | e3⟩
    · unfold swarm.newJoinTokenCommand.RunE swarm.newJoinTokenCommand.display
      simp only [hb, h3, Bool.false_eq_true, if_false, if_true, List.nil_append]
      rcases hacc with h | h <;> subst h <;> simp
    · rw [h3] at hins
      simp at hins
  · simp only [if_true] at hins
    obtain ⟨hi1, hu⟩ := hrot rfl
    rcases h1 : dockerCli.SwarmInspect none with ⟨sw1, _ | e1⟩
    · rw [h1] at hu
      simp only at hu
      rcases h3 : dockerCli.SwarmInspect (some ⟨arg0 == "worker", arg0 == "manager"⟩)
        with ⟨sw3, _ | e3⟩
      · unfold swarm.newJoinTokenCommand.RunE swarm.newJoinTokenCommand.display
        simp only [hb, h1, hu, h3, Bool.false_eq_true, if_false, if_true]
        rcases hacc with h | h <;> subst h <;> simp
      · rw [h3] at hins
        simp at hins
    · rw [h1] at hi1
      simp at hi1

/-- C25. The join-token command accepts exactly the roles "worker" and
"manager": for any other argument `RunE` returns the unknown-role error with
an empty trace (no request was sent, nothing written), and for an accepted
role the run starts with a `SwarmInspect` request. Every rotation request of a
run carries `RotateWorkerToken` true exactly for worker and
`RotateManagerToken` true exactly for manager, is sent only under `--rotate`,
and is sent under `--rotate` whenever the role is accepted and the first
inspection succeeds. Under `--quiet` the writes of the run are exactly one
`Fprintln` of that role's token (as inspected after the rotation, if any) when
the run succeeds, and none when it fails; and the run does succeed and print
whenever the daemon's answers are without error: with `--quiet`, an accepted
role, the rotation (if requested) accepted and the inspection that follows
answered, `RunE` returns nil and its trace is the rotation requests (if any),
the inspection, and the one `Fprintln` of that role's token to stdout. -/
theorem joinToken_roles (dockerCli : swarm.Client) (rotate quiet : Bool) (arg0 : String) :
    ((arg0 ≠ "worker" ∧ arg0 ≠ "manager") →
      swarm.newJoinTokenCommand.RunE dockerCli rotate quiet arg0 =
        (some (.other ("未知的角色 " ++ arg0)), [])) ∧
    ((arg0 = "worker" ∨ arg0 = "manager") →
      (swarm.newJoinTokenCommand.RunE dockerCli rotate quiet arg0).2.head? =
        some .SwarmInspect) ∧
    (∀ v s f, swarm.Event.SwarmUpdate v s f ∈
        (swarm.newJoinTokenCommand.RunE dockerCli rotate quiet arg0).2 →
      rotate = true ∧ (f.RotateWorkerToken = true ↔ arg0 = "worker") ∧
        (f.RotateManagerToken = true ↔ arg0 = "manager")) ∧
    (rotate = true → (arg0 = "worker" ∨ arg0 = "manager") →
      (dockerCli.SwarmInspect none).2 = none →
      (swarm.newJoinTokenCommand.RunE dockerCli rotate quiet arg0).2.filter
          swarm.Event.isSwarmUpdate =
        [.SwarmUpdate (dockerCli.SwarmInspect none).1.Version
          (dockerCli.SwarmInspect none).1.Spec
          ⟨arg0 == "worker", arg0 == "manager"⟩]) ∧
    (quiet = true →
      (swarm.newJoinTokenCommand.RunE dockerCli rotate quiet arg0).2.filter
          (fun e => !e.isRequest) =
        if (swarm.newJoinTokenCommand.RunE dockerCli rotate quiet arg0).1 = none then
          [.Fprintln .Out
            [if arg0 = "worker" then
              (dockerCli.SwarmInspect
                (if rotate then some ⟨arg0 == "worker", arg0 == "manager"⟩ else none)).1.JoinTokens.Worker
            else
              (dockerCli.SwarmInspect
                (if rotate then some ⟨arg0 == "worker", arg0 == "manager"⟩ else none)).1.JoinTokens.Manager]]
        else []) ∧
    (quiet = true → (arg0 = "worker" ∨ arg0 = "manager") →
      (rotate = true →
        (dockerCli.SwarmInspect none).2 = none ∧
        dockerCli.SwarmUpdate (dockerCli.SwarmInspect none).1.Version
          (dockerCli.SwarmInspect none).1.Spec ⟨arg0 == "worker", arg0 == "manager"⟩ = none) →
      (dockerCli.SwarmInspect
        (if rotate then some ⟨arg0 == "worker", arg0 == "manager"⟩ else none)).2 = none →
      swarm.newJoinTokenCommand.RunE dockerCli rotate quiet arg0 =
        (none,
          (if rotate then
            [.SwarmInspect,
              .SwarmUpdate (dockerCli.SwarmInspect none).1.Version
                (dockerCli.SwarmInspect none).1.Spec ⟨arg0 == "worker", arg0 == "manager"⟩]
          else []) ++
          [.SwarmInspect,
            .Fprintln .Out
              [if arg0 = "worker" then
                (dockerCli.SwarmInspect
                  (if rotate then some ⟨arg0 == "worker", arg0 == "manager"⟩
                    else none)).1.JoinTokens.Worker
              else
                (dockerCli.SwarmInspect
                  (if rotate then some ⟨arg0 == "worker", arg0 == "manager"⟩
                    else none)).1.JoinTokens.Manager]])) := by
  obtain ⟨h1, h2, h3, h4, h5⟩ := swarm.RunE_roles dockerCli rotate quiet arg0
  exact ⟨h1, h2, h3, h4, h5, swarm.RunE_quiet dockerCli rotate quiet arg0⟩

/-- On the sample swarm, `join-token --rotate --quiet worker` rotates the
worker token only and prints the new worker token; an unknown role is
rejected with an empty trace. -/
theorem joinToken_sample :
    swarm.newJoinTokenCommand.RunE swarm.sampleSwarm true true "worker" =
      (none, [.SwarmInspect, .SwarmUpdate 7 "spec" ⟨true, false⟩, .SwarmInspect,
        .Fprintln .Out ["W2"]]) ∧
    swarm.newJoinTokenCommand.RunE swarm.sampleSwarm true true "manager" =
      (none, [.SwarmInspect, .SwarmUpdate 7 "spec" ⟨false, true⟩, .SwarmInspect,
        .Fprintln .Out ["M2"]]) ∧
    swarm.newJoinTokenCommand.RunE swarm.sampleSwarm true true "Worker" =
      (some (.other "未知的角色 Worker"), []) := by
  refine ⟨rfl, rfl, ?_⟩
  decide

end Docker
